import Mathlib

/-!
RunODISF: the command-line driver of the ODISF superpixel segmentation.

A shallow embedding of `src/demo/RunODISF.c`.  The driver reads its options,
loads the input images, creates and configures an ODISF handle, runs the
segmentation and writes the label image.

The functions of the file (`main`, `usage`, `readImgInputs`, `setODISFParams`,
`setODISFSampl`) are translated statement by statement into a small process
monad `Proc`: a computation maps a `World` (the handle slot of the heap and the
chronological trace of the collaborator calls made so far) to a result and the
world it leaves behind.  The result is either a returned value or the
diagnostic of the `iftError` call that terminated the process; the world is
kept in both cases, so what happened before a fatal error stays observable.

The collaborators that live outside the file (`ift.h`, `iftArgs.h`,
`iftODISF.h`) are either parameters (`Env`) or small definitions marked
`Modelled from the spec`.
-/

namespace RunODISF

/-! ## Data model -/

/-- Modelled from the spec: the `iftArgs` object of `iftArgs.h`, which is not part
of the file.  The spec describes it as an immutable mapping from option name to
optional string value, plus presence or absence per option.  An entry
`(k, none)` is the option `--k` given without a value, `(k, some v)` is the
option given with value `v`; the first entry of a key decides. -/
structure iftArgs where
  entries : List (String × Option String)
deriving DecidableEq

/-- Modelled from the spec: `iftExistArg` of `iftArgs.h`, presence of the option. -/
def iftExistArg (args : iftArgs) (key : String) : Bool :=
  match args.entries.lookup key with
  | some _ => true
  | none => false

/-- Modelled from the spec: `iftHasArgVal` of `iftArgs.h`, the option is present and
carries a value. -/
def iftHasArgVal (args : iftArgs) (key : String) : Bool :=
  match args.entries.lookup key with
  | some (some _) => true
  | _ => false

/-- Modelled from the spec: `iftGetArg` of `iftArgs.h`, the value of the option.  The
driver only calls it after `iftHasArgVal` answered true; otherwise the model
returns the empty string. -/
def iftGetArg (args : iftArgs) (key : String) : String :=
  match args.entries.lookup key with
  | some (some v) => v
  | _ => ""

/-- Modelled from the spec: the `iftImage` of `ift.h`, a raster with a spatial domain
(width and height) and its pixel values. -/
structure iftImage where
  xsize : Nat
  ysize : Nat
  val : List Int
deriving DecidableEq

/-- Modelled from the spec: the sampling strategies of `iftODISF.h`
(`IFT_ODISF_SAMPL_GRID`, `IFT_ODISF_SAMPL_RND`). -/
inductive iftODISFSampl where
  | IFT_ODISF_SAMPL_GRID
  | IFT_ODISF_SAMPL_RND
deriving DecidableEq

/-- Modelled from the spec: the `iftODISF` handle of `iftODISF.h`, the algorithm
configuration (field names of the spec) together with the images it was
created from. -/
structure iftODISF where
  useDiagonalAdjacency : Bool
  initialSeedCount : Int
  finalSuperpixelCount : Int
  samplingStrategy : iftODISFSampl
  img : iftImage
  mask : Option iftImage
  objsm : Option iftImage
deriving DecidableEq

/-- The diagnostic of a fatal `iftError(msg, func)` call. -/
structure iftErr where
  msg : String
  func : String
deriving DecidableEq

/-- The resources the driver acquires and releases, named after the variables of
`main`. -/
inductive Resource where
  | args
  | img
  | mask
  | objsm
  | odisf
  | labels
deriving DecidableEq

/-- One collaborator call made by the driver.  A call is recorded when it is made,
before its outcome is known.  `iftReadImageByExt` and `iftDestroyImage` carry
the variable of `main` the image belongs to; `iftRunODISF` carries the handle
it was called on. -/
inductive Event where
  | iftCreateArgs
  | usage
  | iftDestroyArgs
  | iftReadImageByExt (dst : Resource) (path : String)
  | iftCreateODISF
  | iftDestroyImage (r : Resource)
  | iftODISFUseDiagAdj (b : Bool)
  | iftODISFSetN0 (n : Int)
  | iftODISFSetNf (n : Int)
  | iftODISFSetSamplOpt (s : iftODISFSampl)
  | iftRunODISF (h : Option iftODISF)
  | iftDestroyODISF
  | iftWriteImageByExt (labels : iftImage) (path : String)
deriving DecidableEq

/-- The observable state of the process: the slot `*odisf` of the handle (`none` is
the null pointer) and the calls made so far, oldest first. -/
structure World where
  odisf : Option iftODISF
  trace : List Event
deriving DecidableEq

/-- The world at process start. -/
def World.init : World := ⟨none, []⟩

/-- The collaborators whose code is outside the file and whose behaviour the
driver does not constrain: the image codecs, the
pathname check and the segmentation itself.  A collaborator that may end the
process with `iftError` returns an `Except`. -/
structure Env where
  iftReadImageByExt : String → Except iftErr iftImage
  iftIsImagePathnameValid : String → Bool
  iftRunODISF : Option iftODISF → Except iftErr iftImage
  iftWriteImageByExt : iftImage → String → Except iftErr Unit

/-! ## The process monad -/

/-- A computation of the driver: from a world to a result (a value, or the
diagnostic that ended the process) and the world left behind. -/
structure Proc (α : Type) where
  run : World → Except iftErr α × World

/-- Sequencing: a fatal error ends the computation where it is raised. -/
def Proc.bind {α β : Type} (m : Proc α) (f : α → Proc β) : Proc β :=
  ⟨fun w => match m.run w with
    | (Except.ok a, w1) => (f a).run w1
    | (Except.error e, w1) => (Except.error e, w1)⟩

instance : Monad Proc where
  pure a := ⟨fun w => (Except.ok a, w)⟩
  bind := Proc.bind

/-- Record a collaborator call. -/
def emit (e : Event) : Proc Unit :=
  ⟨fun w => (Except.ok (), { w with trace := w.trace ++ [e] })⟩

/-- Continue with the outcome of a collaborator. -/
def outcome {α : Type} (r : Except iftErr α) : Proc α :=
  ⟨fun w => (r, w)⟩

/-- Modelled from the spec: `iftError` of `ift.h`.  Every error is fatal to the job and
aborts it at the point of detection; the call receives the message and the
function name only. -/
def iftError {α : Type} (msg func : String) : Proc α :=
  ⟨fun w => (Except.error ⟨msg, func⟩, w)⟩

/-! ## C library -/

/-- The value of `EXIT_SUCCESS`. -/
def EXIT_SUCCESS : Int := 0

/-- The value of `EXIT_FAILURE`. -/
def EXIT_FAILURE : Int := 1

/-- The white-space characters of `isspace` in the C locale. -/
def isspace (c : Char) : Bool :=
  c.toNat = 32 || (9 ≤ c.toNat && c.toNat ≤ 13)

/-- The decimal digits of `isdigit`. -/
def isdigit (c : Char) : Bool :=
  48 ≤ c.toNat && c.toNat ≤ 57

/-- The value of the leading run of decimal digits, continuing from `acc`. -/
def leadingDigits : List Char → Nat → Nat
  | [], acc => acc
  | c :: cs, acc => if isdigit c then leadingDigits cs (10 * acc + (c.toNat - 48)) else acc

/-- Conversion of an integer to the 32-bit `int`. -/
def toInt32 (z : Int) : Int :=
  (z + 2 ^ 31) % 2 ^ 32 - 2 ^ 31

/-- The signed value of an optional sign followed by decimal digits. -/
def signedDigits : List Char → Int
  | '-' :: cs => - (leadingDigits cs 0 : Int)
  | '+' :: cs => (leadingDigits cs 0 : Int)
  | cs => (leadingDigits cs 0 : Int)

/-- The C library function `atoi`: skip leading white space, read an optional sign
and the leading decimal digits, ignore the rest; the value is 0 when there is
no digit.  A value that does not fit an `int` is undefined behaviour in C; the
model wraps it to 32 bits. -/
def atoi (s : String) : Int :=
  toInt32 (signedDigits (s.toList.dropWhile isspace))

/-! ## Collaborator calls -/

/-- The call `iftCreateArgs(argc, argv)`.  The parser is outside the file; the
argument set it builds is the input of `main`. -/
def iftCreateArgs (args : iftArgs) : Proc iftArgs := do
  emit Event.iftCreateArgs
  pure args

/-- The call `iftDestroyArgs(&args)`. -/
def iftDestroyArgs : Proc Unit :=
  emit Event.iftDestroyArgs

/-- The call `iftReadImageByExt(path)` whose result is stored in `dst`. -/
def iftReadImageByExt (env : Env) (dst : Resource) (path : String) : Proc iftImage := do
  emit (Event.iftReadImageByExt dst path)
  outcome (env.iftReadImageByExt path)

/-- The call `iftDestroyImage(&r)`. -/
def iftDestroyImage (r : Resource) : Proc Unit :=
  emit (Event.iftDestroyImage r)

/-- Modelled from the spec: `iftVerifyImageDomains` of `ift.h`, the image domain
equality check.  Two images are domain-compatible only if their dimensions
match exactly; a mismatch is the fatal `DomainMismatch`, reported for the
function named by the caller. -/
def iftVerifyImageDomains (img1 img2 : iftImage) (func : String) : Proc Unit :=
  if img1.xsize = img2.xsize ∧ img1.ysize = img2.ysize then pure ()
  else iftError "DomainMismatch" func

/-- Modelled from the spec: `iftCompareStrings` of `ift.h`, case-sensitive exact
equality of two strings. -/
def iftCompareStrings (a b : String) : Bool :=
  a == b

/-- Modelled from the spec: the handle that `iftCreateODISF` of `iftODISF.h` returns.  It
is bound to the images and carries the default configuration: diagonal
adjacency, 8000 initial seeds, 200 final superpixels, grid sampling (the
defaults the usage text prints). -/
def newODISF (img : iftImage) (mask objsm : Option iftImage) : iftODISF :=
  { useDiagonalAdjacency := true
    initialSeedCount := 8000
    finalSuperpixelCount := 200
    samplingStrategy := iftODISFSampl.IFT_ODISF_SAMPL_GRID
    img := img
    mask := mask
    objsm := objsm }

/-- The call `odisf = iftCreateODISF(img, mask, objsm)`: the slot receives the new
handle. -/
def iftCreateODISF (img : iftImage) (mask objsm : Option iftImage) : Proc Unit :=
  ⟨fun w => (Except.ok (),
    { odisf := some (newODISF img mask objsm)
      trace := w.trace ++ [Event.iftCreateODISF] })⟩

/-- Modelled from the spec: the setter `iftODISFUseDiagAdj` of `iftODISF.h`; it writes
the adjacency field of the handle and nothing else. -/
def iftODISFUseDiagAdj (b : Bool) : Proc Unit :=
  ⟨fun w => (Except.ok (),
    { odisf := w.odisf.map (fun h => { h with useDiagonalAdjacency := b })
      trace := w.trace ++ [Event.iftODISFUseDiagAdj b] })⟩

/-- Modelled from the spec: the setter `iftODISFSetN0` of `iftODISF.h`; it writes the
initial seed count of the handle and nothing else. -/
def iftODISFSetN0 (n : Int) : Proc Unit :=
  ⟨fun w => (Except.ok (),
    { odisf := w.odisf.map (fun h => { h with initialSeedCount := n })
      trace := w.trace ++ [Event.iftODISFSetN0 n] })⟩

/-- Modelled from the spec: the setter `iftODISFSetNf` of `iftODISF.h`; it writes the
final superpixel count of the handle and nothing else. -/
def iftODISFSetNf (n : Int) : Proc Unit :=
  ⟨fun w => (Except.ok (),
    { odisf := w.odisf.map (fun h => { h with finalSuperpixelCount := n })
      trace := w.trace ++ [Event.iftODISFSetNf n] })⟩

/-- Modelled from the spec: the setter `iftODISFSetSamplOpt` of `iftODISF.h`; it writes
the sampling strategy of the handle and nothing else. -/
def iftODISFSetSamplOpt (s : iftODISFSampl) : Proc Unit :=
  ⟨fun w => (Except.ok (),
    { odisf := w.odisf.map (fun h => { h with samplingStrategy := s })
      trace := w.trace ++ [Event.iftODISFSetSamplOpt s] })⟩

/-- The call `iftRunODISF(odisf)` on the handle currently in the slot. -/
def iftRunODISF (env : Env) : Proc iftImage :=
  ⟨fun w => (env.iftRunODISF w.odisf,
    { w with trace := w.trace ++ [Event.iftRunODISF w.odisf] })⟩

/-- Modelled from the spec: `iftDestroyODISF` of `iftODISF.h`, called as
`iftDestroyODISF(&odisf)`; it destroys the handle and leaves the slot empty. -/
def iftDestroyODISF : Proc Unit :=
  ⟨fun w => (Except.ok (), { odisf := none, trace := w.trace ++ [Event.iftDestroyODISF] })⟩

/-- The call `iftWriteImageByExt(labels, path)`. -/
def iftWriteImageByExt (env : Env) (labels : iftImage) (path : String) : Proc Unit := do
  emit (Event.iftWriteImageByExt labels path)
  outcome (env.iftWriteImageByExt labels path)

/-! ## The functions of `RunODISF.c` -/

/-- The function `usage`: prints the option table. -/
def usage : Proc Unit :=
  emit Event.usage

/-- The function `readImgInputs`: the out-parameters `img`, `mask`, `objsm` and
`path` are the components of the result. -/
def readImgInputs (env : Env) (args : iftArgs) :
    Proc (iftImage × Option iftImage × Option iftImage × String) := do
  let img ←
    if iftHasArgVal args "img" == true then
      iftReadImageByExt env Resource.img (iftGetArg args "img")
    else iftError "No image path was given" "readImgInputs"
  let path ←
    if iftHasArgVal args "out" == true then
      let PATH := iftGetArg args "out"
      if env.iftIsImagePathnameValid PATH == true then pure PATH
      else iftError "Unknown image type" "readImgInputs"
    else iftError "No output label path was given" "readImgInputs"
  let mask ←
    if iftExistArg args "mask" == true then
      if iftHasArgVal args "mask" == true then do
        let m ← iftReadImageByExt env Resource.mask (iftGetArg args "mask")
        iftVerifyImageDomains img m "readImgInputs"
        pure (some m)
      else iftError "No mask path was given" "readImgInputs"
    else pure none
  let objsm ←
    if iftExistArg args "objsm" == true then
      if iftHasArgVal args "objsm" == true then do
        let o ← iftReadImageByExt env Resource.objsm (iftGetArg args "objsm")
        iftVerifyImageDomains img o "readImgInputs"
        pure (some o)
      else iftError "No object saliency map path was given" "readImgInputs"
    else pure none
  pure (img, mask, objsm, path)

/-- The function `setODISFParams`. -/
def setODISFParams (args : iftArgs) : Proc Unit := do
  iftODISFUseDiagAdj (!iftExistArg args "no-diag-adj")
  if iftExistArg args "n0" == true then
    if iftHasArgVal args "n0" == true then
      let n0 := atoi (iftGetArg args "n0")
      iftODISFSetN0 n0
    else iftError "No initial number of seeds was given" "setODISFParams"
  if iftExistArg args "nf" == true then
    if iftHasArgVal args "nf" == true then
      let nf := atoi (iftGetArg args "nf")
      iftODISFSetNf nf
    else iftError "No desired quantity of superpixels was given" "setODISFParams"

/-- The function `setODISFSampl`. -/
def setODISFSampl (args : iftArgs) : Proc Unit := do
  if iftExistArg args "sampl-op" == true then
    if iftHasArgVal args "sampl-op" == true then
      let OPT := iftGetArg args "sampl-op"
      if iftCompareStrings OPT "grid" then
        iftODISFSetSamplOpt iftODISFSampl.IFT_ODISF_SAMPL_GRID
      else if iftCompareStrings OPT "rnd" then
        iftODISFSetSamplOpt iftODISFSampl.IFT_ODISF_SAMPL_RND
      else iftError "Unknown seed sampling algorithm" "setODISFSampl"
    else iftError "No sampling algorithm was given" "setODISFSampl"

/-- The function `main`, on the argument set `parsed` that `iftCreateArgs` builds
from `argc` and `argv`; the result is the exit status it returns. -/
def main (env : Env) (parsed : iftArgs) : Proc Int := do
  let args ← iftCreateArgs parsed
  let has_req := iftExistArg args "img" && iftExistArg args "out"
  let has_help := iftExistArg args "help"
  if has_req == false || has_help == true then
    usage
    iftDestroyArgs
    pure EXIT_FAILURE
  else
    let (img, mask, objsm, LABEL_PATH) ← readImgInputs env args
    iftCreateODISF img mask objsm
    iftDestroyImage Resource.img
    if mask != none then iftDestroyImage Resource.mask
    if objsm != none then iftDestroyImage Resource.objsm
    setODISFParams args
    setODISFSampl args
    iftDestroyArgs
    let labels ← iftRunODISF env
    iftDestroyODISF
    iftWriteImageByExt env labels LABEL_PATH
    iftDestroyImage Resource.labels
    pure EXIT_SUCCESS

/-- The Configuration Builder: lines 51 and 52 of `main`, `setODISFParams`
followed by `setODISFSampl` on the same handle and arguments. -/
def configure (args : iftArgs) : Proc Unit := do
  setODISFParams args
  setODISFSampl args

/-- The part of `main` that follows `readImgInputs` (lines 46 to 61), on the values
it returned, with lines 51 and 52 grouped as `configure`. -/
def afterResolve (env : Env) (args : iftArgs)
    (r : iftImage × Option iftImage × Option iftImage × String) : Proc Int :=
  match r with
  | (img, mask, objsm, LABEL_PATH) => do
    iftCreateODISF img mask objsm
    iftDestroyImage Resource.img
    if mask != none then iftDestroyImage Resource.mask
    if objsm != none then iftDestroyImage Resource.objsm
    configure args
    iftDestroyArgs
    let labels ← iftRunODISF env
    iftDestroyODISF
    iftWriteImageByExt env labels LABEL_PATH
    iftDestroyImage Resource.labels
    pure EXIT_SUCCESS

/-- The calls `main` has made when `configure` starts: `iftCreateArgs`, the loads
`reads` of `readImgInputs`, `iftCreateODISF`, and the release of each loaded
image. -/
def resolvedTrace (reads : List Event) (mask objsm : Option iftImage) : List Event :=
  [Event.iftCreateArgs] ++ reads ++ [Event.iftCreateODISF, Event.iftDestroyImage Resource.img] ++
    (if mask.isSome then [Event.iftDestroyImage Resource.mask] else []) ++
    (if objsm.isSome then [Event.iftDestroyImage Resource.objsm] else [])

deriving instance DecidableEq for Except

instance : DecidableEq (iftImage × Option iftImage × Option iftImage × String) :=
  inferInstance

instance : DecidableEq (Except iftErr (iftImage × Option iftImage × Option iftImage × String)) :=
  inferInstance

/-! ## Observations on a trace -/

/-- The arguments of the adjacency setter calls of a trace, oldest first. -/
def adjCalls : List Event → List Bool
  | [] => []
  | Event.iftODISFUseDiagAdj b :: tr => b :: adjCalls tr
  | _ :: tr => adjCalls tr

/-- The arguments of the `iftODISFSetN0` calls of a trace, oldest first. -/
def n0Calls : List Event → List Int
  | [] => []
  | Event.iftODISFSetN0 n :: tr => n :: n0Calls tr
  | _ :: tr => n0Calls tr

/-- The arguments of the `iftODISFSetNf` calls of a trace, oldest first. -/
def nfCalls : List Event → List Int
  | [] => []
  | Event.iftODISFSetNf n :: tr => n :: nfCalls tr
  | _ :: tr => nfCalls tr

/-- The arguments of the `iftODISFSetSamplOpt` calls of a trace, oldest first. -/
def samplCalls : List Event → List iftODISFSampl
  | [] => []
  | Event.iftODISFSetSamplOpt s :: tr => s :: samplCalls tr
  | _ :: tr => samplCalls tr

/-- The handles `iftRunODISF` was called on in a trace, oldest first. -/
def runCalls : List Event → List (Option iftODISF)
  | [] => []
  | Event.iftRunODISF h :: tr => h :: runCalls tr
  | _ :: tr => runCalls tr

/-- The images and paths `iftWriteImageByExt` was called on in a trace, oldest
first. -/
def writeCalls : List Event → List (iftImage × String)
  | [] => []
  | Event.iftWriteImageByExt l p :: tr => (l, p) :: writeCalls tr
  | _ :: tr => writeCalls tr

/-- The destinations and paths of the `iftReadImageByExt` calls of a trace, oldest
first. -/
def readCalls : List Event → List (Resource × String)
  | [] => []
  | Event.iftReadImageByExt d p :: tr => (d, p) :: readCalls tr
  | _ :: tr => readCalls tr

/-- The number of `iftCreateODISF` calls of a trace. -/
def createCalls : List Event → Nat
  | [] => 0
  | Event.iftCreateODISF :: tr => createCalls tr + 1
  | _ :: tr => createCalls tr

/-- The resource a call acquires, if any: the argument set by `iftCreateArgs`, an
image by `iftReadImageByExt`, the handle by `iftCreateODISF`, the label image
by `iftRunODISF`. -/
def acquires : Event → Option Resource
  | Event.iftCreateArgs => some Resource.args
  | Event.iftReadImageByExt d _ => some d
  | Event.iftCreateODISF => some Resource.odisf
  | Event.iftRunODISF _ => some Resource.labels
  | _ => none

/-- The resource a call releases, if any. -/
def releases : Event → Option Resource
  | Event.iftDestroyArgs => some Resource.args
  | Event.iftDestroyImage r => some r
  | Event.iftDestroyODISF => some Resource.odisf
  | _ => none

/-- How many times a trace acquires the resource `r`. -/
def acquired (r : Resource) (tr : List Event) : Nat :=
  tr.countP (fun e => acquires e = some r)

/-- How many times a trace releases the resource `r`. -/
def released (r : Resource) (tr : List Event) : Nat :=
  tr.countP (fun e => releases e = some r)

/-- A computation is trace-local when it never looks at the calls already made:
run from any world, it gives the result and the handle slot it gives from the
same world with an empty trace, and appends the calls of that run. -/
structure Local {α : Type} (m : Proc α) : Prop where
  run_eq : ∀ w : World,
    m.run w =
      ((m.run ⟨w.odisf, []⟩).1,
        ⟨(m.run ⟨w.odisf, []⟩).2.odisf, w.trace ++ (m.run ⟨w.odisf, []⟩).2.trace⟩)

/-- A computation only makes calls that satisfy `P`: the trace it leaves is the one
it found followed by such calls. -/
structure Emits {α : Type} (P : Event → Prop) (m : Proc α) : Prop where
  trace_eq :
    ∀ w : World, ∃ evs : List Event, (m.run w).2.trace = w.trace ++ evs ∧ ∀ e ∈ evs, P e

/-- A computation neither creates nor destroys the handle: the slot is occupied
after it exactly when it was before. -/
structure KeepsHandle {α : Type} (m : Proc α) : Prop where
  isSome_eq : ∀ w : World, (m.run w).2.odisf.isSome = w.odisf.isSome

/-- The calls that load one of the three input images. -/
def isRead (e : Event) : Prop :=
  ∃ d p, e = Event.iftReadImageByExt d p ∧
    (d = Resource.img ∨ d = Resource.mask ∨ d = Resource.objsm)

/-- The calls of the four configuration setters. -/
def isSetter (e : Event) : Prop :=
  (∃ b, e = Event.iftODISFUseDiagAdj b) ∨ (∃ n, e = Event.iftODISFSetN0 n) ∨
    (∃ n, e = Event.iftODISFSetNf n) ∨ (∃ s, e = Event.iftODISFSetSamplOpt s)


/-! ## Concrete inputs -/

/-- A 4 by 4 image of one colour. -/
def img4x4 : iftImage := ⟨4, 4, List.replicate 16 0⟩

/-- A 5 by 4 image of one colour. -/
def img5x4 : iftImage := ⟨5, 4, List.replicate 20 0⟩

/-- A handle as `iftCreateODISF` makes it from the 4 by 4 image alone. -/
def freshHandle : iftODISF :=
  newODISF img4x4 none none

/-- A small environment: `a.png` is a 4 by 4 image, `m.png` a 5 by 4 image, every
other file is missing; a path is valid when it ends in `.png`; the
segmentation labels every pixel 1; writing succeeds. -/
def demoEnv : Env where
  iftReadImageByExt path :=
    if path = "a.png" then Except.ok img4x4
    else if path = "m.png" then Except.ok img5x4
    else Except.error ⟨"Cannot open file", "iftReadImageByExt"⟩
  iftIsImagePathnameValid path := ".png".toList.isSuffixOf path.toList
  iftRunODISF h :=
    match h with
    | some o => Except.ok ⟨o.img.xsize, o.img.ysize, List.replicate (o.img.xsize * o.img.ysize) 1⟩
    | none => Except.error ⟨"Null handle", "iftRunODISF"⟩
  iftWriteImageByExt _ _ := Except.ok ()

/-! ## Basic facts about the process monad -/

section ProcLemmas

variable {α β : Type}

@[simp] theorem run_pure (a : α) (w : World) :
    (pure a : Proc α).run w = (Except.ok a, w) := rfl

@[simp] theorem run_bind (m : Proc α) (f : α → Proc β) (w : World) :
    (m >>= f).run w =
      match m.run w with
      | (Except.ok a, w1) => (f a).run w1
      | (Except.error e, w1) => (Except.error e, w1) := rfl

@[simp] theorem run_ite (c : Prop) [Decidable c] (a b : Proc α) (w : World) :
    (if c then a else b).run w = if c then a.run w else b.run w := by
  split <;> rfl

@[simp] theorem run_emit (e : Event) (w : World) :
    (emit e).run w = (Except.ok (), ⟨w.odisf, w.trace ++ [e]⟩) := rfl

@[simp] theorem run_outcome (r : Except iftErr α) (w : World) :
    (outcome r).run w = (r, w) := rfl

@[simp] theorem run_iftError (msg func : String) (w : World) :
    (iftError msg func : Proc α).run w = (Except.error ⟨msg, func⟩, w) := rfl

@[simp] theorem run_iftCreateODISF (img : iftImage) (mask objsm : Option iftImage) (w : World) :
    (iftCreateODISF img mask objsm).run w =
      (Except.ok (), ⟨some (newODISF img mask objsm), w.trace ++ [Event.iftCreateODISF]⟩) := rfl

@[simp] theorem run_iftODISFUseDiagAdj (b : Bool) (w : World) :
    (iftODISFUseDiagAdj b).run w =
      (Except.ok (),
        ⟨w.odisf.map (fun h => { h with useDiagonalAdjacency := b }),
          w.trace ++ [Event.iftODISFUseDiagAdj b]⟩) := rfl

@[simp] theorem run_iftODISFSetN0 (n : Int) (w : World) :
    (iftODISFSetN0 n).run w =
      (Except.ok (),
        ⟨w.odisf.map (fun h => { h with initialSeedCount := n }),
          w.trace ++ [Event.iftODISFSetN0 n]⟩) := rfl

@[simp] theorem run_iftODISFSetNf (n : Int) (w : World) :
    (iftODISFSetNf n).run w =
      (Except.ok (),
        ⟨w.odisf.map (fun h => { h with finalSuperpixelCount := n }),
          w.trace ++ [Event.iftODISFSetNf n]⟩) := rfl

@[simp] theorem run_iftODISFSetSamplOpt (s : iftODISFSampl) (w : World) :
    (iftODISFSetSamplOpt s).run w =
      (Except.ok (),
        ⟨w.odisf.map (fun h => { h with samplingStrategy := s }),
          w.trace ++ [Event.iftODISFSetSamplOpt s]⟩) := rfl

@[simp] theorem run_iftRunODISF (env : Env) (w : World) :
    (iftRunODISF env).run w =
      (env.iftRunODISF w.odisf, ⟨w.odisf, w.trace ++ [Event.iftRunODISF w.odisf]⟩) := rfl

@[simp] theorem run_iftDestroyODISF (w : World) :
    iftDestroyODISF.run w = (Except.ok (), ⟨none, w.trace ++ [Event.iftDestroyODISF]⟩) := rfl

end ProcLemmas

/-- An option that carries a value is present. -/
theorem iftExistArg_of_iftHasArgVal (args : iftArgs) (key : String)
    (h : iftHasArgVal args key = true) : iftExistArg args key = true := by
  unfold iftHasArgVal at h
  unfold iftExistArg
  cases hl : args.entries.lookup key with
  | none => simp [hl] at h
  | some v => rfl

/-- An absent option carries no value. -/
theorem iftHasArgVal_of_not_iftExistArg (args : iftArgs) (key : String)
    (h : iftExistArg args key = false) : iftHasArgVal args key = false := by
  cases hv : iftHasArgVal args key with
  | false => rfl
  | true => rw [iftExistArg_of_iftHasArgVal args key hv] at h; cases h

/-! ## The sampling strategy -/

/-- Claim C3: `setODISFSampl`, on any argument set and any handle.  Without the
`--sampl-op` key it makes no call and leaves the handle as it is; with the
value `grid` it sets the strategy to grid and succeeds; with the value `rnd` it
sets the strategy to random and succeeds; with any other value it ends the
process with the diagnostic `Unknown seed sampling algorithm` (the spec's
`UnsupportedOption`) and never calls the setter. -/
theorem setODISFSampl_cases (args : iftArgs) (h : iftODISF) (tr : List Event) :
    (iftExistArg args "sampl-op" = false →
      (setODISFSampl args).run ⟨some h, tr⟩ = (Except.ok (), ⟨some h, tr⟩)) ∧
    (iftHasArgVal args "sampl-op" = true → iftGetArg args "sampl-op" = "grid" →
      (setODISFSampl args).run ⟨some h, tr⟩ =
        (Except.ok (),
          ⟨some { h with samplingStrategy := iftODISFSampl.IFT_ODISF_SAMPL_GRID },
            tr ++ [Event.iftODISFSetSamplOpt iftODISFSampl.IFT_ODISF_SAMPL_GRID]⟩)) ∧
    (iftHasArgVal args "sampl-op" = true → iftGetArg args "sampl-op" = "rnd" →
      (setODISFSampl args).run ⟨some h, tr⟩ =
        (Except.ok (),
          ⟨some { h with samplingStrategy := iftODISFSampl.IFT_ODISF_SAMPL_RND },
            tr ++ [Event.iftODISFSetSamplOpt iftODISFSampl.IFT_ODISF_SAMPL_RND]⟩)) ∧
    (iftHasArgVal args "sampl-op" = true → iftGetArg args "sampl-op" ≠ "grid" →
      iftGetArg args "sampl-op" ≠ "rnd" →
      (setODISFSampl args).run ⟨some h, tr⟩ =
        (Except.error ⟨"Unknown seed sampling algorithm", "setODISFSampl"⟩, ⟨some h, tr⟩)) := by
  refine ⟨?_, ?_, ?_, ?_⟩
  · intro hx
    simp [setODISFSampl, hx]
  · intro hv hg
    have hx := iftExistArg_of_iftHasArgVal args _ hv
    simp [setODISFSampl, hx, hv, hg, iftCompareStrings]
  · intro hv hg
    have hx := iftExistArg_of_iftHasArgVal args _ hv
    simp [setODISFSampl, hx, hv, hg, iftCompareStrings]
  · intro hv hg hr
    have hx := iftExistArg_of_iftHasArgVal args _ hv
    simp [setODISFSampl, hx, hv, hg, hr, iftCompareStrings]

/-- Witness of claim C3 on the sets `{}`, `--sampl-op grid`, `--sampl-op rnd`,
`--sampl-op foo` and `--sampl-op Grid`. -/
theorem setODISFSampl_cases_witness :
    (setODISFSampl ⟨[]⟩).run ⟨some freshHandle, []⟩ = (Except.ok (), ⟨some freshHandle, []⟩) ∧
    (setODISFSampl ⟨[("sampl-op", some "grid")]⟩).run ⟨some freshHandle, []⟩ =
      (Except.ok (),
        ⟨some { freshHandle with samplingStrategy := iftODISFSampl.IFT_ODISF_SAMPL_GRID },
          [] ++ [Event.iftODISFSetSamplOpt iftODISFSampl.IFT_ODISF_SAMPL_GRID]⟩) ∧
    (setODISFSampl ⟨[("sampl-op", some "rnd")]⟩).run ⟨some freshHandle, []⟩ =
      (Except.ok (),
        ⟨some { freshHandle with samplingStrategy := iftODISFSampl.IFT_ODISF_SAMPL_RND },
          [] ++ [Event.iftODISFSetSamplOpt iftODISFSampl.IFT_ODISF_SAMPL_RND]⟩) ∧
    (setODISFSampl ⟨[("sampl-op", some "foo")]⟩).run ⟨some freshHandle, []⟩ =
      (Except.error ⟨"Unknown seed sampling algorithm", "setODISFSampl"⟩,
        ⟨some freshHandle, []⟩) ∧
    (setODISFSampl ⟨[("sampl-op", some "Grid")]⟩).run ⟨some freshHandle, []⟩ =
      (Except.error ⟨"Unknown seed sampling algorithm", "setODISFSampl"⟩,
        ⟨some freshHandle, []⟩) :=
  ⟨(setODISFSampl_cases ⟨[]⟩ freshHandle []).1 (by decide),
   (setODISFSampl_cases ⟨[("sampl-op", some "grid")]⟩ freshHandle []).2.1
     (by decide) (by decide),
   (setODISFSampl_cases ⟨[("sampl-op", some "rnd")]⟩ freshHandle []).2.2.1
     (by decide) (by decide),
   (setODISFSampl_cases ⟨[("sampl-op", some "foo")]⟩ freshHandle []).2.2.2
     (by decide) (by decide) (by decide),
   (setODISFSampl_cases ⟨[("sampl-op", some "Grid")]⟩ freshHandle []).2.2.2
     (by decide) (by decide) (by decide)⟩

/-! ## Adjacency and seed counts -/

section TraceLemmas

@[simp] theorem adjCalls_append (a b : List Event) : adjCalls (a ++ b) = adjCalls a ++ adjCalls b := by
  induction a with
  | nil => rfl
  | cons e a ih => cases e <;> simp [adjCalls, ih]

@[simp] theorem n0Calls_append (a b : List Event) : n0Calls (a ++ b) = n0Calls a ++ n0Calls b := by
  induction a with
  | nil => rfl
  | cons e a ih => cases e <;> simp [n0Calls, ih]

@[simp] theorem nfCalls_append (a b : List Event) : nfCalls (a ++ b) = nfCalls a ++ nfCalls b := by
  induction a with
  | nil => rfl
  | cons e a ih => cases e <;> simp [nfCalls, ih]

@[simp] theorem samplCalls_append (a b : List Event) :
    samplCalls (a ++ b) = samplCalls a ++ samplCalls b := by
  induction a with
  | nil => rfl
  | cons e a ih => cases e <;> simp [samplCalls, ih]

@[simp] theorem runCalls_append (a b : List Event) : runCalls (a ++ b) = runCalls a ++ runCalls b := by
  induction a with
  | nil => rfl
  | cons e a ih => cases e <;> simp [runCalls, ih]

@[simp] theorem writeCalls_append (a b : List Event) :
    writeCalls (a ++ b) = writeCalls a ++ writeCalls b := by
  induction a with
  | nil => rfl
  | cons e a ih => cases e <;> simp [writeCalls, ih]

@[simp] theorem readCalls_append (a b : List Event) :
    readCalls (a ++ b) = readCalls a ++ readCalls b := by
  induction a with
  | nil => rfl
  | cons e a ih => cases e <;> simp [readCalls, ih]

@[simp] theorem createCalls_append (a b : List Event) :
    createCalls (a ++ b) = createCalls a + createCalls b := by
  induction a with
  | nil => simp [createCalls]
  | cons e a ih =>
    cases e <;> simp [createCalls, ih]
    omega

@[simp] theorem acquired_append (r : Resource) (a b : List Event) :
    acquired r (a ++ b) = acquired r a + acquired r b := by
  simp [acquired]

@[simp] theorem released_append (r : Resource) (a b : List Event) :
    released r (a ++ b) = released r a + released r b := by
  simp [released]

end TraceLemmas

/-- Claim C6: after `setODISFParams`, on any argument set and any handle, the
adjacency field is the negation of the presence of `--no-diag-adj` (false
exactly when the key is present, true otherwise), whatever the other options
are and whether or not a later option ends the process; the call makes exactly
one adjacency setter call; evaluating it again on the world it left yields the
same adjacency.  Presence alone counts: `--no-diag-adj` without a value and
`--no-diag-adj 1` both give false. -/
theorem setODISFParams_adjacency (args : iftArgs) (h : iftODISF) (tr : List Event) :
    (∃ h1 : iftODISF,
      ((setODISFParams args).run ⟨some h, tr⟩).2.odisf = some h1 ∧
      h1.useDiagonalAdjacency = (!iftExistArg args "no-diag-adj") ∧
      (h1.useDiagonalAdjacency = false ↔ iftExistArg args "no-diag-adj" = true) ∧
      adjCalls ((setODISFParams args).run ⟨some h, tr⟩).2.trace =
        adjCalls tr ++ [!iftExistArg args "no-diag-adj"] ∧
      ∃ h2 : iftODISF,
        ((setODISFParams args).run ((setODISFParams args).run ⟨some h, tr⟩).2).2.odisf = some h2 ∧
        h2.useDiagonalAdjacency = h1.useDiagonalAdjacency) ∧
    ((setODISFParams ⟨[("no-diag-adj", none)]⟩).run ⟨some freshHandle, []⟩).2.odisf =
      some { freshHandle with useDiagonalAdjacency := false } ∧
    ((setODISFParams ⟨[("no-diag-adj", some "1")]⟩).run ⟨some freshHandle, []⟩).2.odisf =
      some { freshHandle with useDiagonalAdjacency := false } ∧
    ((setODISFParams ⟨[]⟩).run ⟨some freshHandle, []⟩).2.odisf = some freshHandle := by
  refine ⟨?_, by decide, by decide, by decide⟩
  cases e0 : iftExistArg args "n0" <;> cases v0 : iftHasArgVal args "n0" <;>
    cases ef : iftExistArg args "nf" <;> cases vf : iftHasArgVal args "nf" <;>
    simp [setODISFParams, e0, v0, ef, vf, adjCalls]

/-- Claim C4, as stated, fails: with `--n0` present without a value and
`--nf 5`, the key `--nf` carries the value `5` but `setODISFParams` ends the
process at `--n0`, the setter `iftODISFSetNf` is never called and the final
superpixel count keeps its old value 200 instead of 5. -/
theorem setODISFParams_nf_not_independent :
    iftHasArgVal ⟨[("n0", none), ("nf", some "5")]⟩ "nf" = true ∧
    atoi (iftGetArg ⟨[("n0", none), ("nf", some "5")]⟩ "nf") = 5 ∧
    (setODISFParams ⟨[("n0", none), ("nf", some "5")]⟩).run ⟨some freshHandle, []⟩ =
      (Except.error ⟨"No initial number of seeds was given", "setODISFParams"⟩,
        ⟨some freshHandle, [Event.iftODISFUseDiagAdj true]⟩) ∧
    freshHandle.finalSuperpixelCount = 200 := by
  decide

/-- Claim C4, amended: `setODISFParams` on any argument set and any handle.
* `--n0` present without a value: the process ends with the diagnostic
  `No initial number of seeds was given` (the spec's `MissingInput`), no seed
  setter is called and both counts keep their values.
* Otherwise the initial seed count is `atoi` of the value when `--n0` is present
  and is unchanged when it is absent, with no check of the parsed value, and
  `--nf` is treated the same way: present without a value, the process ends
  with `No desired quantity of superpixels was given`, `iftODISFSetNf` is not
  called and the final count keeps its value; else the call succeeds and the
  final count is `atoi` of the value when `--nf` is present and unchanged when it
  is absent.
* The parse is that of `atoi`: `abc` gives 0, `0` gives 0, `-5` gives -5 and
  `12abc` gives 12.
Each setter is called at most once, and setting one count leaves the other
alone. -/
theorem setODISFParams_seed_counts (args : iftArgs) (h : iftODISF) (tr : List Event) :
    (iftExistArg args "n0" = true → iftHasArgVal args "n0" = false →
      (setODISFParams args).run ⟨some h, tr⟩ =
        (Except.error ⟨"No initial number of seeds was given", "setODISFParams"⟩,
          ⟨some { h with useDiagonalAdjacency := !iftExistArg args "no-diag-adj" },
            tr ++ [Event.iftODISFUseDiagAdj (!iftExistArg args "no-diag-adj")]⟩)) ∧
    ((iftExistArg args "n0" = false ∨ iftHasArgVal args "n0" = true) →
      iftExistArg args "nf" = true → iftHasArgVal args "nf" = false →
      ((setODISFParams args).run ⟨some h, tr⟩).1 =
          Except.error ⟨"No desired quantity of superpixels was given", "setODISFParams"⟩ ∧
        ((setODISFParams args).run ⟨some h, tr⟩).2.odisf =
          some { h with
            useDiagonalAdjacency := !iftExistArg args "no-diag-adj"
            initialSeedCount :=
              if iftExistArg args "n0" = true then atoi (iftGetArg args "n0")
              else h.initialSeedCount } ∧
        n0Calls ((setODISFParams args).run ⟨some h, tr⟩).2.trace =
          n0Calls tr ++
            (if iftExistArg args "n0" = true then [atoi (iftGetArg args "n0")] else []) ∧
        nfCalls ((setODISFParams args).run ⟨some h, tr⟩).2.trace = nfCalls tr) ∧
    ((iftExistArg args "n0" = false ∨ iftHasArgVal args "n0" = true) →
      (iftExistArg args "nf" = false ∨ iftHasArgVal args "nf" = true) →
      ((setODISFParams args).run ⟨some h, tr⟩).1 = Except.ok () ∧
        ((setODISFParams args).run ⟨some h, tr⟩).2.odisf =
          some { h with
            useDiagonalAdjacency := !iftExistArg args "no-diag-adj"
            initialSeedCount :=
              if iftExistArg args "n0" = true then atoi (iftGetArg args "n0")
              else h.initialSeedCount
            finalSuperpixelCount :=
              if iftExistArg args "nf" = true then atoi (iftGetArg args "nf")
              else h.finalSuperpixelCount } ∧
        n0Calls ((setODISFParams args).run ⟨some h, tr⟩).2.trace =
          n0Calls tr ++
            (if iftExistArg args "n0" = true then [atoi (iftGetArg args "n0")] else []) ∧
        nfCalls ((setODISFParams args).run ⟨some h, tr⟩).2.trace =
          nfCalls tr ++
            (if iftExistArg args "nf" = true then [atoi (iftGetArg args "nf")] else [])) ∧
    (atoi "abc" = 0 ∧ atoi "0" = 0 ∧ atoi "-5" = -5 ∧ atoi "12abc" = 12) := by
  refine ⟨?_, ?_, ?_, by decide⟩
  · intro e0 v0
    simp [setODISFParams, e0, v0]
  · intro hn0 ef vf
    rcases hn0 with e0 | v0
    · simp [setODISFParams, e0, ef, vf, n0Calls, nfCalls]
    · have e0 := iftExistArg_of_iftHasArgVal args _ v0
      simp [setODISFParams, e0, v0, ef, vf, n0Calls, nfCalls]
  · intro hn0 hnf
    rcases hn0 with e0 | v0
    · rcases hnf with ef | vf
      · simp [setODISFParams, e0, ef, n0Calls, nfCalls]
      · have ef := iftExistArg_of_iftHasArgVal args _ vf
        simp [setODISFParams, e0, ef, vf, n0Calls, nfCalls]
    · have e0 := iftExistArg_of_iftHasArgVal args _ v0
      rcases hnf with ef | vf
      · simp [setODISFParams, e0, v0, ef, n0Calls, nfCalls]
      · have ef := iftExistArg_of_iftHasArgVal args _ vf
        simp [setODISFParams, e0, v0, ef, vf, n0Calls, nfCalls]

/-- Witness of the amended claim C4 on the sets `--n0` (no value),
`--n0 abc --nf` (no value for `--nf`) and `--n0 -5 --nf 7`. -/
theorem setODISFParams_seed_counts_witness :
    (setODISFParams ⟨[("n0", none)]⟩).run ⟨some freshHandle, []⟩ =
      (Except.error ⟨"No initial number of seeds was given", "setODISFParams"⟩,
        ⟨some freshHandle, [Event.iftODISFUseDiagAdj true]⟩) ∧
    (((setODISFParams ⟨[("n0", some "abc"), ("nf", none)]⟩).run ⟨some freshHandle, []⟩).1 =
        Except.error ⟨"No desired quantity of superpixels was given", "setODISFParams"⟩ ∧
      ((setODISFParams ⟨[("n0", some "abc"), ("nf", none)]⟩).run ⟨some freshHandle, []⟩).2.odisf =
        some { freshHandle with initialSeedCount := 0 } ∧
      n0Calls ((setODISFParams ⟨[("n0", some "abc"), ("nf", none)]⟩).run
        ⟨some freshHandle, []⟩).2.trace = [0] ∧
      nfCalls ((setODISFParams ⟨[("n0", some "abc"), ("nf", none)]⟩).run
        ⟨some freshHandle, []⟩).2.trace = []) ∧
    (((setODISFParams ⟨[("n0", some "-5"), ("nf", some "7")]⟩).run ⟨some freshHandle, []⟩).1 =
        Except.ok () ∧
      ((setODISFParams ⟨[("n0", some "-5"), ("nf", some "7")]⟩).run ⟨some freshHandle, []⟩).2.odisf =
        some { freshHandle with initialSeedCount := -5, finalSuperpixelCount := 7 } ∧
      n0Calls ((setODISFParams ⟨[("n0", some "-5"), ("nf", some "7")]⟩).run
        ⟨some freshHandle, []⟩).2.trace = [-5] ∧
      nfCalls ((setODISFParams ⟨[("n0", some "-5"), ("nf", some "7")]⟩).run
        ⟨some freshHandle, []⟩).2.trace = [7]) :=
  ⟨(setODISFParams_seed_counts ⟨[("n0", none)]⟩ freshHandle []).1 (by decide) (by decide),
   (setODISFParams_seed_counts ⟨[("n0", some "abc"), ("nf", none)]⟩ freshHandle []).2.1
     (Or.inr (by decide)) (by decide) (by decide),
   (setODISFParams_seed_counts ⟨[("n0", some "-5"), ("nf", some "7")]⟩ freshHandle []).2.2.1
     (Or.inr (by decide)) (Or.inr (by decide))⟩

/-! ## The Configuration Builder as a whole -/

/-- Claim C10, as stated, fails: the builder commits every mutation that precedes
the failing option.  With `--n0 5 --nf` (no value for `--nf`) it fails and
leaves the initial seed count at 5 instead of 8000; with `--n0 5 --sampl-op foo`
it fails in `setODISFSampl` and leaves the initial seed count at 5; with
`--no-diag-adj --n0` (no value) it fails and leaves the adjacency at false
instead of true. -/
theorem configure_not_atomic :
    (configure ⟨[("n0", some "5"), ("nf", none)]⟩).run ⟨some freshHandle, []⟩ =
      (Except.error ⟨"No desired quantity of superpixels was given", "setODISFParams"⟩,
        ⟨some { freshHandle with initialSeedCount := 5 },
          [Event.iftODISFUseDiagAdj true, Event.iftODISFSetN0 5]⟩) ∧
    (configure ⟨[("n0", some "5"), ("sampl-op", some "foo")]⟩).run ⟨some freshHandle, []⟩ =
      (Except.error ⟨"Unknown seed sampling algorithm", "setODISFSampl"⟩,
        ⟨some { freshHandle with initialSeedCount := 5 },
          [Event.iftODISFUseDiagAdj true, Event.iftODISFSetN0 5]⟩) ∧
    (configure ⟨[("no-diag-adj", none), ("n0", none)]⟩).run ⟨some freshHandle, []⟩ =
      (Except.error ⟨"No initial number of seeds was given", "setODISFParams"⟩,
        ⟨some { freshHandle with useDiagonalAdjacency := false },
          [Event.iftODISFUseDiagAdj false]⟩) ∧
    ({ freshHandle with initialSeedCount := 5 } : iftODISF) ≠ freshHandle ∧
    ({ freshHandle with useDiagonalAdjacency := false } : iftODISF) ≠ freshHandle := by
  decide

/-- Claim C10, amended: the builder processes the options in the fixed order
adjacency, `--n0`, `--nf`, `--sampl-op` and ends the process at the first
option it rejects.  On success every requested mutation is applied.  On
failure the mutations of the options processed before the failing one stay
applied (the adjacency always, then the initial seed count, then the final
superpixel count), and the failing option and those after it are not applied:
* failure at `--n0` (present without a value): only the adjacency is written;
* failure at `--nf` (present without a value): adjacency and initial seed count
  are written;
* failure at `--sampl-op` (present without a value, or with a value other than
  `grid` and `rnd`): adjacency and both counts are written, the strategy is
  not. -/
theorem configure_commits_in_order (args : iftArgs) (h : iftODISF) (tr : List Event) :
    (iftExistArg args "n0" = true → iftHasArgVal args "n0" = false →
      ((configure args).run ⟨some h, tr⟩).1 =
          Except.error ⟨"No initial number of seeds was given", "setODISFParams"⟩ ∧
        ((configure args).run ⟨some h, tr⟩).2.odisf =
          some { h with useDiagonalAdjacency := !iftExistArg args "no-diag-adj" }) ∧
    ((iftExistArg args "n0" = false ∨ iftHasArgVal args "n0" = true) →
      iftExistArg args "nf" = true → iftHasArgVal args "nf" = false →
      ((configure args).run ⟨some h, tr⟩).1 =
          Except.error ⟨"No desired quantity of superpixels was given", "setODISFParams"⟩ ∧
        ((configure args).run ⟨some h, tr⟩).2.odisf =
          some { h with
            useDiagonalAdjacency := !iftExistArg args "no-diag-adj"
            initialSeedCount :=
              if iftExistArg args "n0" = true then atoi (iftGetArg args "n0")
              else h.initialSeedCount }) ∧
    ((iftExistArg args "n0" = false ∨ iftHasArgVal args "n0" = true) →
      (iftExistArg args "nf" = false ∨ iftHasArgVal args "nf" = true) →
      iftExistArg args "sampl-op" = true →
      (iftHasArgVal args "sampl-op" = false ∨
        (iftGetArg args "sampl-op" ≠ "grid" ∧ iftGetArg args "sampl-op" ≠ "rnd")) →
      ((configure args).run ⟨some h, tr⟩).1 =
          Except.error
            ⟨if iftHasArgVal args "sampl-op" = true then "Unknown seed sampling algorithm"
              else "No sampling algorithm was given", "setODISFSampl"⟩ ∧
        ((configure args).run ⟨some h, tr⟩).2.odisf =
          some { h with
            useDiagonalAdjacency := !iftExistArg args "no-diag-adj"
            initialSeedCount :=
              if iftExistArg args "n0" = true then atoi (iftGetArg args "n0")
              else h.initialSeedCount
            finalSuperpixelCount :=
              if iftExistArg args "nf" = true then atoi (iftGetArg args "nf")
              else h.finalSuperpixelCount }) ∧
    ((iftExistArg args "n0" = false ∨ iftHasArgVal args "n0" = true) →
      (iftExistArg args "nf" = false ∨ iftHasArgVal args "nf" = true) →
      (iftExistArg args "sampl-op" = false ∨
        (iftHasArgVal args "sampl-op" = true ∧
          (iftGetArg args "sampl-op" = "grid" ∨ iftGetArg args "sampl-op" = "rnd"))) →
      ((configure args).run ⟨some h, tr⟩).1 = Except.ok () ∧
        ((configure args).run ⟨some h, tr⟩).2.odisf =
          some { h with
            useDiagonalAdjacency := !iftExistArg args "no-diag-adj"
            initialSeedCount :=
              if iftExistArg args "n0" = true then atoi (iftGetArg args "n0")
              else h.initialSeedCount
            finalSuperpixelCount :=
              if iftExistArg args "nf" = true then atoi (iftGetArg args "nf")
              else h.finalSuperpixelCount
            samplingStrategy :=
              if iftExistArg args "sampl-op" = true then
                (if iftGetArg args "sampl-op" = "grid" then iftODISFSampl.IFT_ODISF_SAMPL_GRID
                  else iftODISFSampl.IFT_ODISF_SAMPL_RND)
              else h.samplingStrategy }) := by
  have hx : ∀ k, iftHasArgVal args k = true → iftExistArg args k = true :=
    fun k => iftExistArg_of_iftHasArgVal args k
  have hn : ∀ k, iftExistArg args k = false → iftHasArgVal args k = false :=
    fun k => iftHasArgVal_of_not_iftExistArg args k
  refine ⟨?_, ?_, ?_, ?_⟩
  · intro e0 v0
    simp [configure, setODISFParams, e0, v0]
  · intro hn0 ef vf
    rcases hn0 with e0 | v0
    · simp [configure, setODISFParams, e0, ef, vf]
    · simp [configure, setODISFParams, hx _ v0, v0, ef, vf]
  · intro hn0 hnf es hs
    cases vs : iftHasArgVal args "sampl-op" with
    | false =>
      rcases hn0 with e0 | v0 <;> rcases hnf with ef | vf
      all_goals simp [configure, setODISFParams, setODISFSampl, *]
    | true =>
      have hgr : iftGetArg args "sampl-op" ≠ "grid" ∧ iftGetArg args "sampl-op" ≠ "rnd" := by
        rcases hs with hv | hv
        · rw [vs] at hv
          cases hv
        · exact hv
      obtain ⟨hg, hr⟩ := hgr
      rcases hn0 with e0 | v0 <;> rcases hnf with ef | vf
      all_goals simp [configure, setODISFParams, setODISFSampl, iftCompareStrings, *]
  · intro hn0 hnf hs
    rcases hn0 with e0 | v0 <;> rcases hnf with ef | vf <;>
      rcases hs with es | ⟨vs, hg | hr⟩
    all_goals simp [configure, setODISFParams, setODISFSampl, iftCompareStrings, *]

/-- Witness of the amended claim C10 on `--n0` (no value), `--n0 5 --nf` (no
value for `--nf`), `--n0 5 --sampl-op foo` and `--n0 5 --nf 7 --sampl-op rnd`. -/
theorem configure_commits_in_order_witness :
    (((configure ⟨[("n0", none)]⟩).run ⟨some freshHandle, []⟩).1 =
        Except.error ⟨"No initial number of seeds was given", "setODISFParams"⟩ ∧
      ((configure ⟨[("n0", none)]⟩).run ⟨some freshHandle, []⟩).2.odisf = some freshHandle) ∧
    (((configure ⟨[("n0", some "5"), ("nf", none)]⟩).run ⟨some freshHandle, []⟩).1 =
        Except.error ⟨"No desired quantity of superpixels was given", "setODISFParams"⟩ ∧
      ((configure ⟨[("n0", some "5"), ("nf", none)]⟩).run ⟨some freshHandle, []⟩).2.odisf =
        some { freshHandle with initialSeedCount := 5 }) ∧
    (((configure ⟨[("n0", some "5"), ("sampl-op", some "foo")]⟩).run ⟨some freshHandle, []⟩).1 =
        Except.error ⟨"Unknown seed sampling algorithm", "setODISFSampl"⟩ ∧
      ((configure ⟨[("n0", some "5"), ("sampl-op", some "foo")]⟩).run
        ⟨some freshHandle, []⟩).2.odisf = some { freshHandle with initialSeedCount := 5 }) ∧
    (((configure ⟨[("n0", some "5"), ("nf", some "7"), ("sampl-op", some "rnd")]⟩).run
        ⟨some freshHandle, []⟩).1 = Except.ok () ∧
      ((configure ⟨[("n0", some "5"), ("nf", some "7"), ("sampl-op", some "rnd")]⟩).run
        ⟨some freshHandle, []⟩).2.odisf =
        some { freshHandle with
          initialSeedCount := 5
          finalSuperpixelCount := 7
          samplingStrategy := iftODISFSampl.IFT_ODISF_SAMPL_RND }) :=
  ⟨(configure_commits_in_order ⟨[("n0", none)]⟩ freshHandle []).1 (by decide) (by decide),
   (configure_commits_in_order ⟨[("n0", some "5"), ("nf", none)]⟩ freshHandle []).2.1
     (Or.inr (by decide)) (by decide) (by decide),
   (configure_commits_in_order ⟨[("n0", some "5"), ("sampl-op", some "foo")]⟩
     freshHandle []).2.2.1
     (Or.inr (by decide)) (Or.inl (by decide)) (by decide) (Or.inr (by decide)),
   (configure_commits_in_order ⟨[("n0", some "5"), ("nf", some "7"), ("sampl-op", some "rnd")]⟩
     freshHandle []).2.2.2
     (Or.inr (by decide)) (Or.inr (by decide)) (Or.inr (by decide))⟩

/-! ## The usage gate -/

/-- Behind a closed usage gate `main` prints the usage text, releases the argument
set and returns `EXIT_FAILURE`. -/
theorem main_gate_closed (env : Env) (args : iftArgs)
    (hgate : iftExistArg args "img" = false ∨ iftExistArg args "out" = false ∨
      iftExistArg args "help" = true) :
    (main env args).run World.init =
      (Except.ok EXIT_FAILURE,
        ⟨none, [Event.iftCreateArgs, Event.usage, Event.iftDestroyArgs]⟩) := by
  rcases hgate with hi | ho | hh
  · simp [main, iftCreateArgs, usage, iftDestroyArgs, World.init, hi]
  · simp [main, iftCreateArgs, usage, iftDestroyArgs, World.init, ho]
  · simp [main, iftCreateArgs, usage, iftDestroyArgs, World.init, hh]

/-- Claim C7: when `--img` is absent, or `--out` is absent, or `--help` is
present, `main` returns `EXIT_FAILURE`, which is not zero, and the only calls
it makes after building the argument set are `usage` and `iftDestroyArgs`: no
image is read, no handle is created, the segmentation is not run and nothing is
written. -/
theorem main_usage_gate (env : Env) (args : iftArgs)
    (hgate : iftExistArg args "img" = false ∨ iftExistArg args "out" = false ∨
      iftExistArg args "help" = true) :
    (main env args).run World.init =
        (Except.ok EXIT_FAILURE,
          ⟨none, [Event.iftCreateArgs, Event.usage, Event.iftDestroyArgs]⟩) ∧
      EXIT_FAILURE ≠ 0 ∧
      readCalls ((main env args).run World.init).2.trace = [] ∧
      createCalls ((main env args).run World.init).2.trace = 0 ∧
      runCalls ((main env args).run World.init).2.trace = [] ∧
      writeCalls ((main env args).run World.init).2.trace = [] := by
  rw [main_gate_closed env args hgate]
  refine ⟨rfl, by decide, rfl, rfl, rfl, rfl⟩

/-- Witness of claim C7 on the sets `--out b.png` (no `--img`), `--img a.png` (no
`--out`) and `--img a.png --out b.png --help`. -/
theorem main_usage_gate_witness :
    (main demoEnv ⟨[("out", some "b.png")]⟩).run World.init =
        (Except.ok EXIT_FAILURE,
          ⟨none, [Event.iftCreateArgs, Event.usage, Event.iftDestroyArgs]⟩) ∧
    (main demoEnv ⟨[("img", some "a.png")]⟩).run World.init =
        (Except.ok EXIT_FAILURE,
          ⟨none, [Event.iftCreateArgs, Event.usage, Event.iftDestroyArgs]⟩) ∧
    (main demoEnv ⟨[("img", some "a.png"), ("out", some "b.png"), ("help", none)]⟩).run
        World.init =
        (Except.ok EXIT_FAILURE,
          ⟨none, [Event.iftCreateArgs, Event.usage, Event.iftDestroyArgs]⟩) :=
  ⟨(main_usage_gate demoEnv ⟨[("out", some "b.png")]⟩ (Or.inl (by decide))).1,
   (main_usage_gate demoEnv ⟨[("img", some "a.png")]⟩ (Or.inr (Or.inl (by decide)))).1,
   (main_usage_gate demoEnv ⟨[("img", some "a.png"), ("out", some "b.png"), ("help", none)]⟩
     (Or.inr (Or.inr (by decide)))).1⟩

/-! ## The default configuration -/

/-- Claim C5: on an argument set with `--img` (a value that loads) and `--out` (a
value with a recognized extension) and none of `--help`, `--mask`, `--objsm`,
`--no-diag-adj`, `--n0`, `--nf`, `--sampl-op`, `main` calls `iftRunODISF`
exactly once, on a handle whose configuration is diagonal adjacency true, 8000
initial seeds, 200 final superpixels and grid sampling.  Before that call the
configuration stage has called the adjacency setter once, with true, and none
of the setters of the seed counts and of the sampling strategy, so these three
fields are the ones `iftCreateODISF` gave the handle. -/
theorem main_default_configuration (env : Env) (args : iftArgs) (i : iftImage)
    (himg : iftHasArgVal args "img" = true)
    (hread : env.iftReadImageByExt (iftGetArg args "img") = Except.ok i)
    (hout : iftHasArgVal args "out" = true)
    (hvalid : env.iftIsImagePathnameValid (iftGetArg args "out") = true)
    (hhelp : iftExistArg args "help" = false)
    (hmask : iftExistArg args "mask" = false)
    (hobjsm : iftExistArg args "objsm" = false)
    (hdiag : iftExistArg args "no-diag-adj" = false)
    (hn0 : iftExistArg args "n0" = false)
    (hnf : iftExistArg args "nf" = false)
    (hsampl : iftExistArg args "sampl-op" = false) :
    (∃ rest : List Event,
      ((main env args).run World.init).2.trace =
        [Event.iftCreateArgs, Event.iftReadImageByExt Resource.img (iftGetArg args "img"),
          Event.iftCreateODISF, Event.iftDestroyImage Resource.img,
          Event.iftODISFUseDiagAdj true, Event.iftDestroyArgs,
          Event.iftRunODISF
            (some ⟨true, 8000, 200, iftODISFSampl.IFT_ODISF_SAMPL_GRID, i, none, none⟩)] ++
          rest) ∧
      runCalls ((main env args).run World.init).2.trace =
        [some ⟨true, 8000, 200, iftODISFSampl.IFT_ODISF_SAMPL_GRID, i, none, none⟩] ∧
      adjCalls ((main env args).run World.init).2.trace = [true] ∧
      n0Calls ((main env args).run World.init).2.trace = [] ∧
      nfCalls ((main env args).run World.init).2.trace = [] ∧
      samplCalls ((main env args).run World.init).2.trace = [] := by
  have ei := iftExistArg_of_iftHasArgVal args _ himg
  have eo := iftExistArg_of_iftHasArgVal args _ hout
  cases hr : env.iftRunODISF
      (some ⟨true, 8000, 200, iftODISFSampl.IFT_ODISF_SAMPL_GRID, i, none, none⟩) with
  | error e =>
    simp [main, iftCreateArgs, readImgInputs, iftReadImageByExt, iftDestroyImage,
      setODISFParams, setODISFSampl, iftDestroyArgs, iftWriteImageByExt, World.init,
      adjCalls, n0Calls, nfCalls, samplCalls, runCalls, newODISF, *]
  | ok labels =>
    cases hw : env.iftWriteImageByExt labels (iftGetArg args "out") with
    | error e =>
      simp [main, iftCreateArgs, readImgInputs, iftReadImageByExt, iftDestroyImage,
        setODISFParams, setODISFSampl, iftDestroyArgs, iftWriteImageByExt, World.init,
        adjCalls, n0Calls, nfCalls, samplCalls, runCalls, newODISF, *]
    | ok u =>
      simp [main, iftCreateArgs, readImgInputs, iftReadImageByExt, iftDestroyImage,
        setODISFParams, setODISFSampl, iftDestroyArgs, iftWriteImageByExt, World.init,
        adjCalls, n0Calls, nfCalls, samplCalls, runCalls, newODISF, *]

/-- Witness of claim C5 on `--img a.png --out b.png`. -/
theorem main_default_configuration_witness :
    runCalls ((main demoEnv ⟨[("img", some "a.png"), ("out", some "b.png")]⟩).run
        World.init).2.trace = [some freshHandle] ∧
      adjCalls ((main demoEnv ⟨[("img", some "a.png"), ("out", some "b.png")]⟩).run
        World.init).2.trace = [true] ∧
      n0Calls ((main demoEnv ⟨[("img", some "a.png"), ("out", some "b.png")]⟩).run
        World.init).2.trace = [] ∧
      nfCalls ((main demoEnv ⟨[("img", some "a.png"), ("out", some "b.png")]⟩).run
        World.init).2.trace = [] ∧
      samplCalls ((main demoEnv ⟨[("img", some "a.png"), ("out", some "b.png")]⟩).run
        World.init).2.trace = [] :=
  (main_default_configuration demoEnv ⟨[("img", some "a.png"), ("out", some "b.png")]⟩ img4x4
    (by decide) (by decide) (by decide) (by decide) (by decide) (by decide) (by decide)
    (by decide) (by decide) (by decide) (by decide)).2

/-! ## Locality and framing of the stages -/

section Framing

variable {α β : Type}

theorem local_pure (a : α) : Local (Pure.pure a : Proc α) := by
  constructor
  intro w
  simp

theorem local_iftError (msg func : String) : Local (iftError msg func : Proc α) := by
  constructor
  intro w
  simp

theorem local_outcome (r : Except iftErr α) : Local (outcome r) := by
  constructor
  intro w
  simp

theorem local_emit (e : Event) : Local (emit e) := by
  constructor
  intro w
  simp

theorem local_iftODISFUseDiagAdj (b : Bool) : Local (iftODISFUseDiagAdj b) := by
  constructor
  intro w
  simp

theorem local_iftODISFSetN0 (n : Int) : Local (iftODISFSetN0 n) := by
  constructor
  intro w
  simp

theorem local_iftODISFSetNf (n : Int) : Local (iftODISFSetNf n) := by
  constructor
  intro w
  simp

theorem local_iftODISFSetSamplOpt (s : iftODISFSampl) : Local (iftODISFSetSamplOpt s) := by
  constructor
  intro w
  simp

theorem local_ite (c : Prop) [Decidable c] {a b : Proc α} (ha : Local a) (hb : Local b) :
    Local (if c then a else b) := by
  split
  · exact ha
  · exact hb

theorem local_bind {m : Proc α} {f : α → Proc β} (hm : Local m) (hf : ∀ a, Local (f a)) :
    Local (m >>= f) := by
  constructor
  intro w
  rw [run_bind, run_bind, hm.run_eq w]
  rcases hrun : m.run ⟨w.odisf, []⟩ with ⟨r, w1⟩
  cases r with
  | error e => simp
  | ok a =>
    simp only
    rw [(hf a).run_eq ⟨w1.odisf, w.trace ++ w1.trace⟩, (hf a).run_eq w1]
    simp

theorem emits_pure (P : Event → Prop) (a : α) : Emits P (Pure.pure a : Proc α) := by
  constructor
  intro w
  exact ⟨[], by simp, by simp⟩

theorem emits_iftError (P : Event → Prop) (msg func : String) :
    Emits P (iftError msg func : Proc α) := by
  constructor
  intro w
  exact ⟨[], by simp, by simp⟩

theorem emits_outcome (P : Event → Prop) (r : Except iftErr α) : Emits P (outcome r) := by
  constructor
  intro w
  exact ⟨[], by simp, by simp⟩

theorem emits_emit {P : Event → Prop} {e : Event} (he : P e) : Emits P (emit e) := by
  constructor
  intro w
  exact ⟨[e], by simp, by simpa using he⟩

theorem emits_ite {P : Event → Prop} (c : Prop) [Decidable c] {a b : Proc α}
    (ha : Emits P a) (hb : Emits P b) : Emits P (if c then a else b) := by
  split
  · exact ha
  · exact hb

theorem emits_bind {P : Event → Prop} {m : Proc α} {f : α → Proc β} (hm : Emits P m)
    (hf : ∀ a, Emits P (f a)) : Emits P (m >>= f) := by
  constructor
  intro w
  obtain ⟨evs1, h1, hP1⟩ := hm.trace_eq w
  rw [run_bind]
  rcases hrun : m.run w with ⟨r, w1⟩
  rw [hrun] at h1
  cases r with
  | error e => exact ⟨evs1, h1, hP1⟩
  | ok a =>
    obtain ⟨evs2, h2, hP2⟩ := (hf a).trace_eq w1
    refine ⟨evs1 ++ evs2, ?_, ?_⟩
    · simp only
      simp only at h1
      rw [h2, h1, List.append_assoc]
    · intro e he
      rcases List.mem_append.mp he with h | h
      · exact hP1 e h
      · exact hP2 e h

theorem local_readImgInputs (env : Env) (args : iftArgs) : Local (readImgInputs env args) := by
  unfold RunODISF.readImgInputs RunODISF.iftReadImageByExt RunODISF.iftVerifyImageDomains
  repeat' first
    | apply local_pure
    | apply local_iftError
    | apply local_outcome
    | apply local_emit
    | apply local_ite
    | apply local_bind
    | apply local_ite
    | apply local_bind
    | intro _

theorem isRead_iftReadImageByExt (d : Resource) (p : String)
    (hd : d = Resource.img ∨ d = Resource.mask ∨ d = Resource.objsm) :
    isRead (Event.iftReadImageByExt d p) :=
  ⟨d, p, rfl, hd⟩

theorem emits_readImgInputs (env : Env) (args : iftArgs) :
    Emits isRead (readImgInputs env args) := by
  unfold RunODISF.readImgInputs RunODISF.iftReadImageByExt RunODISF.iftVerifyImageDomains
  repeat' first
    | apply emits_pure
    | apply emits_iftError
    | apply emits_outcome
    | exact emits_emit (isRead_iftReadImageByExt _ _ (by simp))
    | apply emits_ite
    | apply emits_bind
    | apply emits_ite
    | apply emits_bind
    | intro _

theorem emits_iftODISFUseDiagAdj (b : Bool) : Emits isSetter (iftODISFUseDiagAdj b) := by
  constructor
  intro w
  exact ⟨[Event.iftODISFUseDiagAdj b], by simp, by simp [isSetter]⟩

theorem emits_iftODISFSetN0 (n : Int) : Emits isSetter (iftODISFSetN0 n) := by
  constructor
  intro w
  exact ⟨[Event.iftODISFSetN0 n], by simp, by simp [isSetter]⟩

theorem emits_iftODISFSetNf (n : Int) : Emits isSetter (iftODISFSetNf n) := by
  constructor
  intro w
  exact ⟨[Event.iftODISFSetNf n], by simp, by simp [isSetter]⟩

theorem emits_iftODISFSetSamplOpt (s : iftODISFSampl) :
    Emits isSetter (iftODISFSetSamplOpt s) := by
  constructor
  intro w
  exact ⟨[Event.iftODISFSetSamplOpt s], by simp, by simp [isSetter]⟩

theorem local_configure (args : iftArgs) : Local (configure args) := by
  unfold RunODISF.configure RunODISF.setODISFParams RunODISF.setODISFSampl
  repeat' first
    | apply local_pure
    | apply local_iftError
    | apply local_iftODISFUseDiagAdj
    | apply local_iftODISFSetN0
    | apply local_iftODISFSetNf
    | apply local_iftODISFSetSamplOpt
    | apply local_ite
    | apply local_bind
    | apply local_ite
    | apply local_bind
    | intro _

theorem emits_configure (args : iftArgs) : Emits isSetter (configure args) := by
  unfold RunODISF.configure RunODISF.setODISFParams RunODISF.setODISFSampl
  repeat' first
    | apply emits_pure
    | apply emits_iftError
    | apply emits_iftODISFUseDiagAdj
    | apply emits_iftODISFSetN0
    | apply emits_iftODISFSetNf
    | apply emits_iftODISFSetSamplOpt
    | apply emits_ite
    | apply emits_bind
    | apply emits_ite
    | apply emits_bind
    | intro _

theorem keepsHandle_pure (a : α) : KeepsHandle (Pure.pure a : Proc α) := by
  constructor
  intro w
  simp

theorem keepsHandle_iftError (msg func : String) :
    KeepsHandle (iftError msg func : Proc α) := by
  constructor
  intro w
  simp

theorem keepsHandle_iftODISFUseDiagAdj (b : Bool) : KeepsHandle (iftODISFUseDiagAdj b) := by
  constructor
  intro w
  simp

theorem keepsHandle_iftODISFSetN0 (n : Int) : KeepsHandle (iftODISFSetN0 n) := by
  constructor
  intro w
  simp

theorem keepsHandle_iftODISFSetNf (n : Int) : KeepsHandle (iftODISFSetNf n) := by
  constructor
  intro w
  simp

theorem keepsHandle_iftODISFSetSamplOpt (s : iftODISFSampl) :
    KeepsHandle (iftODISFSetSamplOpt s) := by
  constructor
  intro w
  simp

theorem keepsHandle_ite (c : Prop) [Decidable c] {a b : Proc α} (ha : KeepsHandle a)
    (hb : KeepsHandle b) : KeepsHandle (if c then a else b) := by
  split
  · exact ha
  · exact hb

theorem keepsHandle_bind {m : Proc α} {f : α → Proc β} (hm : KeepsHandle m)
    (hf : ∀ a, KeepsHandle (f a)) : KeepsHandle (m >>= f) := by
  constructor
  intro w
  have h1 := hm.isSome_eq w
  rw [run_bind]
  rcases hrun : m.run w with ⟨r, w1⟩
  rw [hrun] at h1
  cases r with
  | error e => exact h1
  | ok a =>
    have h2 := (hf a).isSome_eq w1
    simp only at h1 h2 ⊢
    rw [h2, h1]

theorem keepsHandle_configure (args : iftArgs) : KeepsHandle (configure args) := by
  unfold RunODISF.configure RunODISF.setODISFParams RunODISF.setODISFSampl
  repeat' first
    | apply keepsHandle_pure
    | apply keepsHandle_iftError
    | apply keepsHandle_iftODISFUseDiagAdj
    | apply keepsHandle_iftODISFSetN0
    | apply keepsHandle_iftODISFSetNf
    | apply keepsHandle_iftODISFSetSamplOpt
    | apply keepsHandle_ite
    | apply keepsHandle_bind
    | intro _

/-- The calls of a run from the empty trace satisfy what the computation emits. -/
theorem emits_of_nil {P : Event → Prop} {m : Proc α} (hm : Emits P m) (o : Option iftODISF) :
    ∀ e ∈ (m.run ⟨o, []⟩).2.trace, P e := by
  obtain ⟨evs, h, hP⟩ := hm.trace_eq ⟨o, []⟩
  rw [h]
  simpa using hP

theorem runCalls_of_isRead {evs : List Event} (h : ∀ e ∈ evs, isRead e) : runCalls evs = [] := by
  induction evs with
  | nil => rfl
  | cons e evs ih =>
    obtain ⟨d, p, rfl, -⟩ := h e (List.mem_cons_self _ _)
    simpa [runCalls] using ih (fun x hx => h x (List.mem_cons_of_mem _ hx))

theorem writeCalls_of_isRead {evs : List Event} (h : ∀ e ∈ evs, isRead e) :
    writeCalls evs = [] := by
  induction evs with
  | nil => rfl
  | cons e evs ih =>
    obtain ⟨d, p, rfl, -⟩ := h e (List.mem_cons_self _ _)
    simpa [writeCalls] using ih (fun x hx => h x (List.mem_cons_of_mem _ hx))

theorem createCalls_of_isRead {evs : List Event} (h : ∀ e ∈ evs, isRead e) :
    createCalls evs = 0 := by
  induction evs with
  | nil => rfl
  | cons e evs ih =>
    obtain ⟨d, p, rfl, -⟩ := h e (List.mem_cons_self _ _)
    simpa [createCalls] using ih (fun x hx => h x (List.mem_cons_of_mem _ hx))

theorem released_of_isRead {evs : List Event} (h : ∀ e ∈ evs, isRead e) (r : Resource) :
    released r evs = 0 := by
  unfold released
  rw [List.countP_eq_zero]
  intro e he
  obtain ⟨d, p, rfl, -⟩ := h e he
  simp [releases]

theorem acquired_of_isRead {evs : List Event} (h : ∀ e ∈ evs, isRead e) (r : Resource)
    (hr : r = Resource.args ∨ r = Resource.odisf ∨ r = Resource.labels) :
    acquired r evs = 0 := by
  unfold acquired
  rw [List.countP_eq_zero]
  intro e he
  obtain ⟨d, p, rfl, hd⟩ := h e he
  rcases hr with rfl | rfl | rfl <;> rcases hd with rfl | rfl | rfl <;> simp [acquires]

theorem createCalls_of_isSetter {evs : List Event} (h : ∀ e ∈ evs, isSetter e) :
    createCalls evs = 0 := by
  induction evs with
  | nil => rfl
  | cons e evs ih =>
    have ih1 := ih (fun x hx => h x (List.mem_cons_of_mem _ hx))
    rcases h e (List.mem_cons_self _ _) with ⟨b, rfl⟩ | ⟨n, rfl⟩ | ⟨n, rfl⟩ | ⟨s, rfl⟩ <;>
      simpa [createCalls] using ih1

theorem runCalls_of_isSetter {evs : List Event} (h : ∀ e ∈ evs, isSetter e) :
    runCalls evs = [] := by
  induction evs with
  | nil => rfl
  | cons e evs ih =>
    have ih1 := ih (fun x hx => h x (List.mem_cons_of_mem _ hx))
    rcases h e (List.mem_cons_self _ _) with ⟨b, rfl⟩ | ⟨n, rfl⟩ | ⟨n, rfl⟩ | ⟨s, rfl⟩ <;>
      simpa [runCalls] using ih1

theorem writeCalls_of_isSetter {evs : List Event} (h : ∀ e ∈ evs, isSetter e) :
    writeCalls evs = [] := by
  induction evs with
  | nil => rfl
  | cons e evs ih =>
    have ih1 := ih (fun x hx => h x (List.mem_cons_of_mem _ hx))
    rcases h e (List.mem_cons_self _ _) with ⟨b, rfl⟩ | ⟨n, rfl⟩ | ⟨n, rfl⟩ | ⟨s, rfl⟩ <;>
      simpa [writeCalls] using ih1

theorem released_of_isSetter {evs : List Event} (h : ∀ e ∈ evs, isSetter e) (r : Resource) :
    released r evs = 0 := by
  unfold released
  rw [List.countP_eq_zero]
  intro e he
  rcases h e he with ⟨b, rfl⟩ | ⟨n, rfl⟩ | ⟨n, rfl⟩ | ⟨s, rfl⟩ <;> simp [releases]

theorem acquired_of_isSetter {evs : List Event} (h : ∀ e ∈ evs, isSetter e) (r : Resource) :
    acquired r evs = 0 := by
  unfold acquired
  rw [List.countP_eq_zero]
  intro e he
  rcases h e he with ⟨b, rfl⟩ | ⟨n, rfl⟩ | ⟨n, rfl⟩ | ⟨s, rfl⟩ <;> simp [acquires]

end Framing

/-! ## The Input Resolver -/

/-- What a successful `readImgInputs` establishes: both required options carry a
value, the primary image loaded, the returned path is the `--out` value and has
a recognized extension, an optional image is returned exactly when its key is
present, and then it loaded and has the domain of the primary image; the calls
made are the loads, in the order primary, mask, saliency. -/
theorem readImgInputs_ok (env : Env) (args : iftArgs) (w w1 : World) (i : iftImage)
    (m o : Option iftImage) (p : String)
    (h : (readImgInputs env args).run w = (Except.ok (i, m, o, p), w1)) :
    iftHasArgVal args "img" = true ∧
      env.iftReadImageByExt (iftGetArg args "img") = Except.ok i ∧
      iftHasArgVal args "out" = true ∧ p = iftGetArg args "out" ∧
      env.iftIsImagePathnameValid p = true ∧
      m.isSome = iftExistArg args "mask" ∧ o.isSome = iftExistArg args "objsm" ∧
      (∀ x, m = some x → env.iftReadImageByExt (iftGetArg args "mask") = Except.ok x ∧
        i.xsize = x.xsize ∧ i.ysize = x.ysize) ∧
      (∀ x, o = some x → env.iftReadImageByExt (iftGetArg args "objsm") = Except.ok x ∧
        i.xsize = x.xsize ∧ i.ysize = x.ysize) ∧
      w1 = ⟨w.odisf, w.trace ++
        [Event.iftReadImageByExt Resource.img (iftGetArg args "img")] ++
        (if m.isSome then [Event.iftReadImageByExt Resource.mask (iftGetArg args "mask")]
          else []) ++
        (if o.isSome then [Event.iftReadImageByExt Resource.objsm (iftGetArg args "objsm")]
          else [])⟩ := by
  cases vi : iftHasArgVal args "img" <;>
    simp [readImgInputs, iftReadImageByExt, iftVerifyImageDomains, vi] at h
  rcases ri : env.iftReadImageByExt (iftGetArg args "img") with e | i0 <;> simp [ri] at h
  cases vo : iftHasArgVal args "out" <;> simp [vo] at h
  cases va : env.iftIsImagePathnameValid (iftGetArg args "out") <;> simp [va] at h
  cases em : iftExistArg args "mask" <;> simp [em] at h
  · cases eo : iftExistArg args "objsm" <;> simp [eo] at h
    · obtain ⟨⟨rfl, rfl, rfl, rfl⟩, rfl⟩ := h
      simp [va]
    · cases vob : iftHasArgVal args "objsm" <;> simp [vob] at h
      rcases ro : env.iftReadImageByExt (iftGetArg args "objsm") with e | o0 <;>
        simp [ro] at h
      by_cases hd : i0.xsize = o0.xsize ∧ i0.ysize = o0.ysize
      · rw [if_pos hd] at h
        simp at h
        obtain ⟨⟨rfl, rfl, rfl, rfl⟩, rfl⟩ := h
        simp [va, hd]
      · rw [if_neg hd] at h
        simp at h
  · cases vm : iftHasArgVal args "mask" <;> simp [vm] at h
    rcases rm : env.iftReadImageByExt (iftGetArg args "mask") with e | m0 <;> simp [rm] at h
    by_cases hdm : i0.xsize = m0.xsize ∧ i0.ysize = m0.ysize
    · rw [if_pos hdm] at h
      cases eo : iftExistArg args "objsm" <;> simp [eo] at h
      · obtain ⟨⟨rfl, rfl, rfl, rfl⟩, rfl⟩ := h
        simp [va, hdm]
      · cases vob : iftHasArgVal args "objsm" <;> simp [vob] at h
        rcases ro : env.iftReadImageByExt (iftGetArg args "objsm") with e | o0 <;>
          simp [ro] at h
        by_cases hd : i0.xsize = o0.xsize ∧ i0.ysize = o0.ysize
        · rw [if_pos hd] at h
          simp at h
          obtain ⟨⟨rfl, rfl, rfl, rfl⟩, rfl⟩ := h
          simp only [va, Option.isSome_some, true_and, Option.some.injEq, forall_eq',
            Except.ok.injEq, if_true, List.append_assoc, List.singleton_append,
            List.cons_append, List.nil_append]
          exact ⟨hdm, hd, trivial⟩
        · rw [if_neg hd] at h
          simp at h
    · rw [if_neg hdm] at h
      simp at h

/-! ## The stages of `main` -/

/-- Behind the usage gate, `main` is `readImgInputs` followed by `afterResolve`. -/
theorem main_run_open (env : Env) (args : iftArgs) (hi : iftExistArg args "img" = true)
    (ho : iftExistArg args "out" = true) (hh : iftExistArg args "help" = false) :
    (main env args).run World.init =
      (readImgInputs env args >>= afterResolve env args).run ⟨none, [Event.iftCreateArgs]⟩ := by
  simp only [main, iftCreateArgs, afterResolve, configure, iftDestroyImage, iftDestroyArgs,
    iftWriteImageByExt, World.init, hi, ho, hh, run_bind, run_emit, run_pure, run_ite,
    run_iftCreateODISF, run_iftRunODISF, run_iftDestroyODISF, run_outcome,
    List.nil_append, Bool.and_self, beq_self_eq_true, Bool.or_self, Bool.false_eq_true,
    if_false]
  rcases (readImgInputs env args).run ⟨none, [Event.iftCreateArgs]⟩ with ⟨r, w2⟩
  cases r with
  | error e => rfl
  | ok v =>
    obtain ⟨i, m, o, p⟩ := v
    cases m <;> cases o <;> simp only [bne_self_eq_false, Bool.false_eq_true, if_false, if_true,
      run_pure, run_emit, bne_iff_ne, ne_eq, not_true_eq_false, not_false_eq_true,
      reduceCtorEq]
    all_goals
      generalize (setODISFParams args).run _ = rp
      obtain ⟨rp1, wp⟩ := rp
      cases rp1 with
      | error e => simp
      | ok u =>
        simp only []
        generalize (setODISFSampl args).run wp = rs
        obtain ⟨rs1, ws⟩ := rs
        cases rs1 <;> simp

/-- The handle `iftCreateODISF` makes from the resolved images. -/
theorem configure_some (args : iftArgs) (h : iftODISF) (tr : List Event) :
    ∃ h1 : iftODISF, ((configure args).run ⟨some h, tr⟩).2.odisf = some h1 := by
  have hk := (keepsHandle_configure args).isSome_eq ⟨some h, tr⟩
  simp only [Option.isSome_some] at hk
  exact Option.isSome_iff_exists.mp hk

/-- A failure of `readImgInputs` ends `main` with the same diagnostic; the calls
made are `iftCreateArgs` and the loads. -/
theorem main_read_error (env : Env) (args : iftArgs) (hi : iftExistArg args "img" = true)
    (ho : iftExistArg args "out" = true) (hh : iftExistArg args "help" = false)
    (e : iftErr) (wr : World)
    (hr : (readImgInputs env args).run World.init = (Except.error e, wr)) :
    (main env args).run World.init =
      (Except.error e, ⟨wr.odisf, [Event.iftCreateArgs] ++ wr.trace⟩) := by
  have hr1 : (readImgInputs env args).run ⟨none, []⟩ = (Except.error e, wr) := hr
  rw [main_run_open env args hi ho hh, run_bind,
    (local_readImgInputs env args).run_eq ⟨none, [Event.iftCreateArgs]⟩, hr1]

/-- When `readImgInputs` succeeds, `main` continues with `afterResolve` on the calls
made so far. -/
theorem main_read_ok (env : Env) (args : iftArgs) (hi : iftExistArg args "img" = true)
    (ho : iftExistArg args "out" = true) (hh : iftExistArg args "help" = false)
    (i : iftImage) (m o : Option iftImage) (p : String) (wr : World)
    (hr : (readImgInputs env args).run World.init = (Except.ok (i, m, o, p), wr)) :
    (main env args).run World.init =
      (afterResolve env args (i, m, o, p)).run ⟨wr.odisf, [Event.iftCreateArgs] ++ wr.trace⟩ := by
  have hr1 : (readImgInputs env args).run ⟨none, []⟩ = (Except.ok (i, m, o, p), wr) := hr
  rw [main_run_open env args hi ho hh, run_bind,
    (local_readImgInputs env args).run_eq ⟨none, [Event.iftCreateArgs]⟩, hr1]

/-- The run of `afterResolve`, stage by stage, in terms of the run of `configure` on
the fresh handle from the empty trace. -/
theorem run_afterResolve (env : Env) (args : iftArgs) (i : iftImage)
    (m o : Option iftImage) (p : String) (od : Option iftODISF) (reads : List Event) :
    (afterResolve env args (i, m, o, p)).run ⟨od, [Event.iftCreateArgs] ++ reads⟩ =
      match (configure args).run
          ⟨some (newODISF i m o), []⟩ with
      | (Except.error e, wc) => (Except.error e, ⟨wc.odisf, resolvedTrace reads m o ++ wc.trace⟩)
      | (Except.ok _, wc) =>
        match env.iftRunODISF wc.odisf with
        | Except.error e =>
          (Except.error e,
            ⟨wc.odisf, resolvedTrace reads m o ++ wc.trace ++
              [Event.iftDestroyArgs, Event.iftRunODISF wc.odisf]⟩)
        | Except.ok labels =>
          match env.iftWriteImageByExt labels p with
          | Except.error e =>
            (Except.error e,
              ⟨none, resolvedTrace reads m o ++ wc.trace ++
                [Event.iftDestroyArgs, Event.iftRunODISF wc.odisf, Event.iftDestroyODISF,
                  Event.iftWriteImageByExt labels p]⟩)
          | Except.ok _ =>
            (Except.ok EXIT_SUCCESS,
              ⟨none, resolvedTrace reads m o ++ wc.trace ++
                [Event.iftDestroyArgs, Event.iftRunODISF wc.odisf, Event.iftDestroyODISF,
                  Event.iftWriteImageByExt labels p, Event.iftDestroyImage Resource.labels]⟩) := by
  have hloc : ∀ tr, (configure args).run
      ⟨some (newODISF i m o), tr⟩ =
      (((configure args).run
          ⟨some (newODISF i m o), []⟩).1,
        ⟨((configure args).run
          ⟨some (newODISF i m o), []⟩).2.odisf,
          tr ++ ((configure args).run
            ⟨some (newODISF i m o),
              []⟩).2.trace⟩) :=
    fun tr => (local_configure args).run_eq ⟨_, tr⟩
  generalize (configure args).run
    ⟨some (newODISF i m o), []⟩ = c at hloc ⊢
  obtain ⟨rc, wc⟩ := c
  simp only [afterResolve, iftDestroyImage, iftDestroyArgs, iftWriteImageByExt, run_bind,
    run_emit, run_pure, run_ite, run_iftCreateODISF, run_iftRunODISF, run_iftDestroyODISF,
    run_outcome]
  cases m <;> cases o <;>
    simp only [bne_self_eq_false, Bool.false_eq_true, if_false, if_true, run_pure, run_emit,
      bne_iff_ne, ne_eq, not_true_eq_false, not_false_eq_true, reduceCtorEq, hloc]
  all_goals
    cases rc with
    | error e => simp [resolvedTrace]
    | ok u =>
      simp only []
      cases env.iftRunODISF wc.odisf with
      | error e => simp [resolvedTrace]
      | ok labels =>
        simp only []
        cases env.iftWriteImageByExt labels p <;> simp [resolvedTrace]

/-- The six ways `main` can end: at the usage gate; with a failure of
`readImgInputs`; with a failure of `configure`; with a failure of the
segmentation; with a failure of the write; with success.  In each case the
result and the whole trace are given in terms of the runs of `readImgInputs`
(from the initial world) and of `configure` (on the new handle, from the empty
trace). -/
theorem main_cases (env : Env) (args : iftArgs) :
    ((iftExistArg args "img" = false ∨ iftExistArg args "out" = false ∨
        iftExistArg args "help" = true) ∧
      (main env args).run World.init =
        (Except.ok EXIT_FAILURE,
          ⟨none, [Event.iftCreateArgs, Event.usage, Event.iftDestroyArgs]⟩)) ∨
    (∃ e wr, (readImgInputs env args).run World.init = (Except.error e, wr) ∧
      (main env args).run World.init =
        (Except.error e, ⟨wr.odisf, [Event.iftCreateArgs] ++ wr.trace⟩)) ∨
    (∃ i m o p wr e wc,
      (readImgInputs env args).run World.init = (Except.ok (i, m, o, p), wr) ∧
      (configure args).run ⟨some (newODISF i m o), []⟩ = (Except.error e, wc) ∧
      (main env args).run World.init =
        (Except.error e, ⟨wc.odisf, resolvedTrace wr.trace m o ++ wc.trace⟩)) ∨
    (∃ i m o p wr wc e,
      (readImgInputs env args).run World.init = (Except.ok (i, m, o, p), wr) ∧
      (configure args).run ⟨some (newODISF i m o), []⟩ = (Except.ok (), wc) ∧
      env.iftRunODISF wc.odisf = Except.error e ∧
      (main env args).run World.init =
        (Except.error e,
          ⟨wc.odisf, resolvedTrace wr.trace m o ++ wc.trace ++
            [Event.iftDestroyArgs, Event.iftRunODISF wc.odisf]⟩)) ∨
    (∃ i m o p wr wc labels e,
      (readImgInputs env args).run World.init = (Except.ok (i, m, o, p), wr) ∧
      (configure args).run ⟨some (newODISF i m o), []⟩ = (Except.ok (), wc) ∧
      env.iftRunODISF wc.odisf = Except.ok labels ∧
      env.iftWriteImageByExt labels p = Except.error e ∧
      (main env args).run World.init =
        (Except.error e,
          ⟨none, resolvedTrace wr.trace m o ++ wc.trace ++
            [Event.iftDestroyArgs, Event.iftRunODISF wc.odisf, Event.iftDestroyODISF,
              Event.iftWriteImageByExt labels p]⟩)) ∨
    (∃ i m o p wr wc labels,
      (readImgInputs env args).run World.init = (Except.ok (i, m, o, p), wr) ∧
      (configure args).run ⟨some (newODISF i m o), []⟩ = (Except.ok (), wc) ∧
      env.iftRunODISF wc.odisf = Except.ok labels ∧
      env.iftWriteImageByExt labels p = Except.ok () ∧
      (main env args).run World.init =
        (Except.ok EXIT_SUCCESS,
          ⟨none, resolvedTrace wr.trace m o ++ wc.trace ++
            [Event.iftDestroyArgs, Event.iftRunODISF wc.odisf, Event.iftDestroyODISF,
              Event.iftWriteImageByExt labels p, Event.iftDestroyImage Resource.labels]⟩)) := by
  by_cases hgate : iftExistArg args "img" = false ∨ iftExistArg args "out" = false ∨
      iftExistArg args "help" = true
  · exact Or.inl ⟨hgate, main_gate_closed env args hgate⟩
  · have hi : iftExistArg args "img" = true := by
      cases h : iftExistArg args "img"
      · exact absurd (Or.inl h) hgate
      · rfl
    have ho : iftExistArg args "out" = true := by
      cases h : iftExistArg args "out"
      · exact absurd (Or.inr (Or.inl h)) hgate
      · rfl
    have hh : iftExistArg args "help" = false := by
      cases h : iftExistArg args "help"
      · rfl
      · exact absurd (Or.inr (Or.inr h)) hgate
    right
    rcases hr : (readImgInputs env args).run World.init with ⟨r, wr⟩
    cases r with
    | error e => exact Or.inl ⟨e, wr, rfl, main_read_error env args hi ho hh e wr hr⟩
    | ok v =>
      obtain ⟨i, m, o, p⟩ := v
      right
      have hmain := main_read_ok env args hi ho hh i m o p wr hr
      rw [run_afterResolve] at hmain
      rcases hc : (configure args).run ⟨some (newODISF i m o), []⟩ with ⟨rc, wc⟩
      rw [hc] at hmain
      cases rc with
      | error e => exact Or.inl ⟨i, m, o, p, wr, e, wc, rfl, hc, hmain⟩
      | ok u =>
        right
        simp only at hmain
        cases hrun : env.iftRunODISF wc.odisf with
        | error e =>
          rw [hrun] at hmain
          exact Or.inl ⟨i, m, o, p, wr, wc, e, rfl, hc, hrun, hmain⟩
        | ok labels =>
          right
          rw [hrun] at hmain
          simp only at hmain
          cases hw : env.iftWriteImageByExt labels p with
          | error e =>
            rw [hw] at hmain
            exact Or.inl ⟨i, m, o, p, wr, wc, labels, e, rfl, hc, hrun, hw, hmain⟩
          | ok u2 =>
            rw [hw] at hmain
            exact Or.inr ⟨i, m, o, p, wr, wc, labels, rfl, hc, hrun, hw, hmain⟩

/-- The calls of `readImgInputs` run from the initial world are loads. -/
theorem reads_of_run (env : Env) (args : iftArgs) :
    ∀ e ∈ ((readImgInputs env args).run World.init).2.trace, isRead e :=
  emits_of_nil (emits_readImgInputs env args) none

/-- The calls of `configure` run from the empty trace are setter calls. -/
theorem setters_of_run (args : iftArgs) (h : iftODISF) :
    ∀ e ∈ ((configure args).run ⟨some h, []⟩).2.trace, isSetter e :=
  emits_of_nil (emits_configure args) (some h)

/-! ## The required options -/

/-- Claim C1, as stated, fails: the domain check of an optional image comes after
the checks of `--out` and, for the saliency map, after the whole treatment of
`--mask`.  With `--img a.png --out b.txt --mask m.png`, where `m.png` is 5 by 4
and `a.png` 4 by 4, the process ends with `Unknown image type`; with
`--img a.png --out b.png --mask --objsm m.png` it ends with
`No mask path was given`.  Neither is the domain mismatch. -/
theorem main_mismatch_not_reported :
    demoEnv.iftReadImageByExt "a.png" = Except.ok img4x4 ∧
    demoEnv.iftReadImageByExt "m.png" = Except.ok img5x4 ∧
    img4x4.xsize ≠ img5x4.xsize ∧
    iftHasArgVal ⟨[("img", some "a.png"), ("out", some "b.txt"), ("mask", some "m.png")]⟩
      "mask" = true ∧
    (main demoEnv ⟨[("img", some "a.png"), ("out", some "b.txt"), ("mask", some "m.png")]⟩).run
        World.init =
      (Except.error ⟨"Unknown image type", "readImgInputs"⟩,
        ⟨none, [Event.iftCreateArgs, Event.iftReadImageByExt Resource.img "a.png"]⟩) ∧
    iftHasArgVal
      ⟨[("img", some "a.png"), ("out", some "b.png"), ("mask", none), ("objsm", some "m.png")]⟩
      "objsm" = true ∧
    (main demoEnv
        ⟨[("img", some "a.png"), ("out", some "b.png"), ("mask", none),
          ("objsm", some "m.png")]⟩).run World.init =
      (Except.error ⟨"No mask path was given", "readImgInputs"⟩,
        ⟨none, [Event.iftCreateArgs, Event.iftReadImageByExt Resource.img "a.png"]⟩) := by
  decide

/-- Claim C1, amended: on an argument set with `--img` (a value that loads) and
`--out` (a value) and without `--help`, in which `--mask` or `--objsm` carries
a value naming an image whose dimensions differ from the primary image's:
* `main` always ends with a fatal error, the one `readImgInputs` ends with, and
  before `iftCreateODISF`: no handle is created, the segmentation is not run
  and nothing is written;
* that error is the `DomainMismatch` raised for `readImgInputs` when moreover
  the `--out` value has a recognized extension and `--mask` is absent or
  carries a value that loads (be the mismatched image the mask or the saliency
  map);
* otherwise an earlier check ends the process with its own diagnostic:
  `Unknown image type` when the extension of the `--out` value is not
  recognized; else `No mask path was given` when `--mask` is present without a
  value; else the error of the load when the mask does not load. -/
theorem main_domain_mismatch (env : Env) (args : iftArgs) (i x : iftImage)
    (himg : iftHasArgVal args "img" = true)
    (hout : iftHasArgVal args "out" = true)
    (hhelp : iftExistArg args "help" = false)
    (hread : env.iftReadImageByExt (iftGetArg args "img") = Except.ok i)
    (hdiff : ¬ (i.xsize = x.xsize ∧ i.ysize = x.ysize))
    (hopt :
      (iftHasArgVal args "mask" = true ∧
        env.iftReadImageByExt (iftGetArg args "mask") = Except.ok x) ∨
      (iftHasArgVal args "objsm" = true ∧
        env.iftReadImageByExt (iftGetArg args "objsm") = Except.ok x)) :
    (∃ e, ((main env args).run World.init).1 = Except.error e ∧
        ((readImgInputs env args).run World.init).1 = Except.error e) ∧
      createCalls ((main env args).run World.init).2.trace = 0 ∧
      runCalls ((main env args).run World.init).2.trace = [] ∧
      writeCalls ((main env args).run World.init).2.trace = [] ∧
      (env.iftIsImagePathnameValid (iftGetArg args "out") = true →
        iftHasArgVal args "mask" = true →
        env.iftReadImageByExt (iftGetArg args "mask") = Except.ok x →
        ((main env args).run World.init).1 =
          Except.error ⟨"DomainMismatch", "readImgInputs"⟩) ∧
      (env.iftIsImagePathnameValid (iftGetArg args "out") = true →
        (iftExistArg args "mask" = false ∨
          ∃ y, iftHasArgVal args "mask" = true ∧
            env.iftReadImageByExt (iftGetArg args "mask") = Except.ok y ∧
            i.xsize = y.xsize ∧ i.ysize = y.ysize) →
        iftHasArgVal args "objsm" = true →
        env.iftReadImageByExt (iftGetArg args "objsm") = Except.ok x →
        ((main env args).run World.init).1 =
          Except.error ⟨"DomainMismatch", "readImgInputs"⟩) ∧
      (env.iftIsImagePathnameValid (iftGetArg args "out") = true →
        (iftExistArg args "mask" = false ∨
          ∃ y, iftHasArgVal args "mask" = true ∧
            env.iftReadImageByExt (iftGetArg args "mask") = Except.ok y) →
        ((main env args).run World.init).1 =
          Except.error ⟨"DomainMismatch", "readImgInputs"⟩) ∧
      (env.iftIsImagePathnameValid (iftGetArg args "out") = false →
        ((main env args).run World.init).1 =
          Except.error ⟨"Unknown image type", "readImgInputs"⟩) ∧
      (env.iftIsImagePathnameValid (iftGetArg args "out") = true →
        iftExistArg args "mask" = true → iftHasArgVal args "mask" = false →
        ((main env args).run World.init).1 =
          Except.error ⟨"No mask path was given", "readImgInputs"⟩) ∧
      (env.iftIsImagePathnameValid (iftGetArg args "out") = true →
        iftHasArgVal args "mask" = true →
        ∀ e, env.iftReadImageByExt (iftGetArg args "mask") = Except.error e →
        ((main env args).run World.init).1 = Except.error e) := by
  have hi := iftExistArg_of_iftHasArgVal args _ himg
  have ho := iftExistArg_of_iftHasArgVal args _ hout
  -- `readImgInputs` cannot succeed
  have hfail : ∃ e wr, (readImgInputs env args).run World.init = (Except.error e, wr) := by
    rcases hr : (readImgInputs env args).run World.init with ⟨r, wr⟩
    cases r with
    | error e => exact ⟨e, wr, rfl⟩
    | ok v =>
      exfalso
      obtain ⟨i1, m, o, p⟩ := v
      obtain ⟨-, hri, -, -, -, hm, hob, hmx, hox, -⟩ :=
        readImgInputs_ok env args World.init wr i1 m o p hr
      rw [hread] at hri
      cases hri
      rcases hopt with ⟨hv, hrx⟩ | ⟨hv, hrx⟩
      · rw [iftExistArg_of_iftHasArgVal args _ hv] at hm
        obtain ⟨y, rfl⟩ := Option.isSome_iff_exists.mp hm
        obtain ⟨hry, hd⟩ := hmx y rfl
        rw [hrx] at hry
        cases hry
        exact hdiff hd
      · rw [iftExistArg_of_iftHasArgVal args _ hv] at hob
        obtain ⟨y, rfl⟩ := Option.isSome_iff_exists.mp hob
        obtain ⟨hry, hd⟩ := hox y rfl
        rw [hrx] at hry
        cases hry
        exact hdiff hd
  obtain ⟨e, wr, hr⟩ := hfail
  have hmain := main_read_error env args hi ho hhelp e wr hr
  have hreads : ∀ ev ∈ wr.trace, isRead ev := by
    have h := reads_of_run env args
    rw [hr] at h
    exact h
  have lift : ∀ d, ((readImgInputs env args).run World.init).1 = Except.error d →
      ((main env args).run World.init).1 = Except.error d := by
    intro d hd
    rw [hr] at hd
    cases hd
    rw [hmain]
  have hobjsm : env.iftIsImagePathnameValid (iftGetArg args "out") = true →
      (iftExistArg args "mask" = false ∨
        ∃ y, iftHasArgVal args "mask" = true ∧
          env.iftReadImageByExt (iftGetArg args "mask") = Except.ok y ∧
          i.xsize = y.xsize ∧ i.ysize = y.ysize) →
      iftHasArgVal args "objsm" = true →
      env.iftReadImageByExt (iftGetArg args "objsm") = Except.ok x →
      ((readImgInputs env args).run World.init).1 =
        Except.error ⟨"DomainMismatch", "readImgInputs"⟩ := by
    intro hva hmask hv hrx
    have heo := iftExistArg_of_iftHasArgVal args _ hv
    rcases hmask with hem | ⟨y, hvm, hry, hdy⟩
    · simp [readImgInputs, iftReadImageByExt, iftVerifyImageDomains, himg, hread, hout, hva,
        hem, heo, hv, hrx, hdiff]
    · have hem := iftExistArg_of_iftHasArgVal args _ hvm
      simp only [readImgInputs, iftReadImageByExt, iftVerifyImageDomains, run_bind, run_ite,
        run_pure, run_emit, run_outcome, run_iftError, himg, hread, hout, hva, hem, hvm,
        hry, heo, hv, hrx, beq_self_eq_true, if_true, if_pos hdy, if_neg hdiff]
  have hmaskbad : env.iftIsImagePathnameValid (iftGetArg args "out") = true →
      ∀ y, iftHasArgVal args "mask" = true →
      env.iftReadImageByExt (iftGetArg args "mask") = Except.ok y →
      ¬ (i.xsize = y.xsize ∧ i.ysize = y.ysize) →
      ((readImgInputs env args).run World.init).1 =
        Except.error ⟨"DomainMismatch", "readImgInputs"⟩ := by
    intro hva y hv hry hdy
    have hem := iftExistArg_of_iftHasArgVal args _ hv
    simp only [readImgInputs, iftReadImageByExt, iftVerifyImageDomains, run_bind, run_ite,
      run_pure, run_emit, run_outcome, run_iftError, himg, hread, hout, hva, hem, hv,
      hry, beq_self_eq_true, if_true, if_neg hdy]
  refine ⟨⟨e, by rw [hmain], by rw [hr]⟩, ?_, ?_, ?_, ?_, ?_, ?_, ?_, ?_, ?_⟩
  · rw [hmain]
    simp [createCalls, createCalls_of_isRead hreads]
  · rw [hmain]
    simp [runCalls, runCalls_of_isRead hreads]
  · rw [hmain]
    simp [writeCalls, writeCalls_of_isRead hreads]
  · intro hva hv hrx
    exact lift _ (hmaskbad hva x hv hrx hdiff)
  · intro hva hmask hv hrx
    exact lift _ (hobjsm hva hmask hv hrx)
  · intro hva hmask
    rcases hmask with hem | ⟨y, hvm, hry⟩
    · rcases hopt with ⟨hv, -⟩ | ⟨hv, hrx⟩
      · rw [iftExistArg_of_iftHasArgVal args _ hv] at hem
        cases hem
      · exact lift _ (hobjsm hva (Or.inl hem) hv hrx)
    · by_cases hdy : i.xsize = y.xsize ∧ i.ysize = y.ysize
      · rcases hopt with ⟨hv, hrx⟩ | ⟨hv, hrx⟩
        · rw [hry] at hrx
          cases hrx
          exact absurd hdy hdiff
        · exact lift _ (hobjsm hva (Or.inr ⟨y, hvm, hry, hdy⟩) hv hrx)
      · exact lift _ (hmaskbad hva y hvm hry hdy)
  · intro hva
    apply lift
    simp [readImgInputs, iftReadImageByExt, himg, hread, hout, hva]
  · intro hva hem hvm
    apply lift
    simp [readImgInputs, iftReadImageByExt, himg, hread, hout, hva, hem, hvm]
  · intro hva hvm e1 hre
    have hem := iftExistArg_of_iftHasArgVal args _ hvm
    apply lift
    simp [readImgInputs, iftReadImageByExt, himg, hread, hout, hva, hem, hvm, hre]

/-- Witness of the amended claim C1, where `a.png` is 4 by 4, `m.png` is 5 by 4 and
`z.png` does not load: on `--img a.png --out b.png --mask m.png`, on
`--img a.png --out b.png --objsm m.png` and on
`--img a.png --out b.png --mask a.png --objsm m.png` (domain mismatch), on
`--img a.png --out b.txt --mask m.png` (unknown image type), on
`--img a.png --out b.png --mask --objsm m.png` (no mask path) and on
`--img a.png --out b.png --mask z.png --objsm m.png` (the load error). -/
theorem main_domain_mismatch_witness :
    (((main demoEnv ⟨[("img", some "a.png"), ("out", some "b.png"), ("mask", some "m.png")]⟩).run
          World.init).1 = Except.error ⟨"DomainMismatch", "readImgInputs"⟩ ∧
      createCalls
        ((main demoEnv ⟨[("img", some "a.png"), ("out", some "b.png"), ("mask", some "m.png")]⟩).run
          World.init).2.trace = 0 ∧
      runCalls
        ((main demoEnv ⟨[("img", some "a.png"), ("out", some "b.png"), ("mask", some "m.png")]⟩).run
          World.init).2.trace = [] ∧
      writeCalls
        ((main demoEnv ⟨[("img", some "a.png"), ("out", some "b.png"), ("mask", some "m.png")]⟩).run
          World.init).2.trace = []) ∧
    ((main demoEnv ⟨[("img", some "a.png"), ("out", some "b.png"), ("objsm", some "m.png")]⟩).run
        World.init).1 = Except.error ⟨"DomainMismatch", "readImgInputs"⟩ ∧
    ((main demoEnv
        ⟨[("img", some "a.png"), ("out", some "b.png"), ("mask", some "a.png"),
          ("objsm", some "m.png")]⟩).run
        World.init).1 = Except.error ⟨"DomainMismatch", "readImgInputs"⟩ ∧
    ((main demoEnv ⟨[("img", some "a.png"), ("out", some "b.txt"), ("mask", some "m.png")]⟩).run
        World.init).1 = Except.error ⟨"Unknown image type", "readImgInputs"⟩ ∧
    ((main demoEnv
        ⟨[("img", some "a.png"), ("out", some "b.png"), ("mask", none),
          ("objsm", some "m.png")]⟩).run
        World.init).1 = Except.error ⟨"No mask path was given", "readImgInputs"⟩ ∧
    ((main demoEnv
        ⟨[("img", some "a.png"), ("out", some "b.png"), ("mask", some "z.png"),
          ("objsm", some "m.png")]⟩).run
        World.init).1 = Except.error ⟨"Cannot open file", "iftReadImageByExt"⟩ :=
  ⟨⟨(main_domain_mismatch demoEnv
        ⟨[("img", some "a.png"), ("out", some "b.png"), ("mask", some "m.png")]⟩ img4x4 img5x4
        (by decide) (by decide) (by decide) (by decide) (by decide)
        (Or.inl ⟨by decide, by decide⟩)).2.2.2.2.1 (by decide) (by decide) (by decide),
      (main_domain_mismatch demoEnv
        ⟨[("img", some "a.png"), ("out", some "b.png"), ("mask", some "m.png")]⟩ img4x4 img5x4
        (by decide) (by decide) (by decide) (by decide) (by decide)
        (Or.inl ⟨by decide, by decide⟩)).2.1,
      (main_domain_mismatch demoEnv
        ⟨[("img", some "a.png"), ("out", some "b.png"), ("mask", some "m.png")]⟩ img4x4 img5x4
        (by decide) (by decide) (by decide) (by decide) (by decide)
        (Or.inl ⟨by decide, by decide⟩)).2.2.1,
      (main_domain_mismatch demoEnv
        ⟨[("img", some "a.png"), ("out", some "b.png"), ("mask", some "m.png")]⟩ img4x4 img5x4
        (by decide) (by decide) (by decide) (by decide) (by decide)
        (Or.inl ⟨by decide, by decide⟩)).2.2.2.1⟩,
    (main_domain_mismatch demoEnv
      ⟨[("img", some "a.png"), ("out", some "b.png"), ("objsm", some "m.png")]⟩ img4x4 img5x4
      (by decide) (by decide) (by decide) (by decide) (by decide)
      (Or.inr ⟨by decide, by decide⟩)).2.2.2.2.2.1 (by decide) (Or.inl (by decide)) (by decide)
      (by decide),
    (main_domain_mismatch demoEnv
      ⟨[("img", some "a.png"), ("out", some "b.png"), ("mask", some "a.png"),
        ("objsm", some "m.png")]⟩ img4x4 img5x4
      (by decide) (by decide) (by decide) (by decide) (by decide)
      (Or.inr ⟨by decide, by decide⟩)).2.2.2.2.2.2.1 (by decide)
      (Or.inr ⟨img4x4, by decide, by decide⟩),
    (main_domain_mismatch demoEnv
      ⟨[("img", some "a.png"), ("out", some "b.txt"), ("mask", some "m.png")]⟩ img4x4 img5x4
      (by decide) (by decide) (by decide) (by decide) (by decide)
      (Or.inl ⟨by decide, by decide⟩)).2.2.2.2.2.2.2.1 (by decide),
    (main_domain_mismatch demoEnv
      ⟨[("img", some "a.png"), ("out", some "b.png"), ("mask", none),
        ("objsm", some "m.png")]⟩ img4x4 img5x4
      (by decide) (by decide) (by decide) (by decide) (by decide)
      (Or.inr ⟨by decide, by decide⟩)).2.2.2.2.2.2.2.2.1 (by decide) (by decide) (by decide),
    (main_domain_mismatch demoEnv
      ⟨[("img", some "a.png"), ("out", some "b.png"), ("mask", some "z.png"),
        ("objsm", some "m.png")]⟩ img4x4 img5x4
      (by decide) (by decide) (by decide) (by decide) (by decide)
      (Or.inr ⟨by decide, by decide⟩)).2.2.2.2.2.2.2.2.2 (by decide) (by decide)
      ⟨"Cannot open file", "iftReadImageByExt"⟩ (by decide)⟩

/-! ## Run and write -/

/-- The calls made before `configure` contain one `iftCreateODISF`, no
`iftRunODISF` and no `iftWriteImageByExt`. -/
theorem calls_resolvedTrace (reads : List Event) (m o : Option iftImage)
    (h : ∀ e ∈ reads, isRead e) :
    runCalls (resolvedTrace reads m o) = [] ∧ writeCalls (resolvedTrace reads m o) = [] ∧
      createCalls (resolvedTrace reads m o) = 1 := by
  cases m <;> cases o <;>
    simp [resolvedTrace, runCalls, writeCalls, createCalls, runCalls_of_isRead h,
      writeCalls_of_isRead h, createCalls_of_isRead h]

/-- Claim C9: in every execution of `main` there is at most one
`iftWriteImageByExt` call and at most one `iftRunODISF` call.  When a write
occurs, its path is the `--out` value, which `readImgInputs` accepted (a value
with a recognized extension); `readImgInputs` and `configure` (both
configuration steps) succeeded; `iftRunODISF` was called exactly once, on the
handle `configure` left, and returned the image that is written; and in the
trace the run call precedes the write, with no other run or write before or
after.  When the execution stops at the usage gate, or `readImgInputs` fails,
or `configure` fails, there is no run call and no write call. -/
theorem main_run_then_write (env : Env) (args : iftArgs) :
    (writeCalls ((main env args).run World.init).2.trace).length ≤ 1 ∧
    (runCalls ((main env args).run World.init).2.trace).length ≤ 1 ∧
    (∀ labels p, (labels, p) ∈ writeCalls ((main env args).run World.init).2.trace →
      iftHasArgVal args "out" = true ∧ p = iftGetArg args "out" ∧
        env.iftIsImagePathnameValid p = true ∧
        ∃ i m o wr wc h,
          (readImgInputs env args).run World.init = (Except.ok (i, m, o, p), wr) ∧
          (configure args).run ⟨some (newODISF i m o), []⟩ = (Except.ok (), wc) ∧
          wc.odisf = some h ∧
          env.iftRunODISF (some h) = Except.ok labels ∧
          runCalls ((main env args).run World.init).2.trace = [some h] ∧
          writeCalls ((main env args).run World.init).2.trace = [(labels, p)] ∧
          ∃ before after,
            ((main env args).run World.init).2.trace =
              before ++ [Event.iftRunODISF (some h), Event.iftDestroyODISF,
                Event.iftWriteImageByExt labels p] ++ after ∧
            runCalls before = [] ∧ writeCalls before = [] ∧
            runCalls after = [] ∧ writeCalls after = []) ∧
    ((iftExistArg args "img" = false ∨ iftExistArg args "out" = false ∨
        iftExistArg args "help" = true) →
      runCalls ((main env args).run World.init).2.trace = [] ∧
        writeCalls ((main env args).run World.init).2.trace = []) ∧
    (∀ e, ((readImgInputs env args).run World.init).1 = Except.error e →
      runCalls ((main env args).run World.init).2.trace = [] ∧
        writeCalls ((main env args).run World.init).2.trace = []) ∧
    (∀ i m o p e, ((readImgInputs env args).run World.init).1 = Except.ok (i, m, o, p) →
      ((configure args).run ⟨some (newODISF i m o), []⟩).1 = Except.error e →
      runCalls ((main env args).run World.init).2.trace = [] ∧
        writeCalls ((main env args).run World.init).2.trace = []) := by
  have hreads0 := reads_of_run env args
  rcases main_cases env args with ⟨hg, hmain⟩ | ⟨e, wr, hr, hmain⟩ |
    ⟨i, m, o, p, wr, e, wc, hr, hc, hmain⟩ | ⟨i, m, o, p, wr, wc, e, hr, hc, hrun, hmain⟩ |
    ⟨i, m, o, p, wr, wc, labels, e, hr, hc, hrun, hw, hmain⟩ |
    ⟨i, m, o, p, wr, wc, labels, hr, hc, hrun, hw, hmain⟩
  · -- usage gate
    rw [hmain]
    simp [runCalls, writeCalls]
  · -- `readImgInputs` fails
    have hreads : ∀ ev ∈ wr.trace, isRead ev := by
      rw [hr] at hreads0
      exact hreads0
    rw [hmain]
    simp [runCalls, writeCalls, runCalls_of_isRead hreads, writeCalls_of_isRead hreads]
  · -- `configure` fails
    have hreads : ∀ ev ∈ wr.trace, isRead ev := by
      rw [hr] at hreads0
      exact hreads0
    have hsets : ∀ ev ∈ wc.trace, isSetter ev := by
      have hs := setters_of_run args (newODISF i m o)
      rw [hc] at hs
      exact hs
    obtain ⟨h1, h2, -⟩ := calls_resolvedTrace wr.trace m o hreads
    rw [hmain]
    simp [h1, h2, runCalls_of_isSetter hsets, writeCalls_of_isSetter hsets]
  · -- the segmentation fails
    have hreads : ∀ ev ∈ wr.trace, isRead ev := by
      rw [hr] at hreads0
      exact hreads0
    have hsets : ∀ ev ∈ wc.trace, isSetter ev := by
      have hs := setters_of_run args (newODISF i m o)
      rw [hc] at hs
      exact hs
    obtain ⟨h1, h2, -⟩ := calls_resolvedTrace wr.trace m o hreads
    have hruns : runCalls ((main env args).run World.init).2.trace = [wc.odisf] := by
      rw [hmain]
      simp only [runCalls_append, h1, runCalls_of_isSetter hsets, List.nil_append]
      rfl
    have hwrites : writeCalls ((main env args).run World.init).2.trace = [] := by
      rw [hmain]
      simp only [writeCalls_append, h2, writeCalls_of_isSetter hsets, List.nil_append]
      rfl
    refine ⟨by simp [hwrites], by simp [hruns], ?_, ?_, ?_, ?_⟩
    · intro l q hmem
      rw [hwrites] at hmem
      cases hmem
    · intro hg
      rw [main_gate_closed env args hg] at hruns
      simp [runCalls] at hruns
    · intro e1 he1
      rw [hr] at he1
      cases he1
    · intro i1 m1 o1 p1 e1 h1 h2
      rw [hr] at h1
      cases h1
      rw [hc] at h2
      cases h2
  · -- the write fails
    have hok := readImgInputs_ok env args World.init wr i m o p hr
    have hreads : ∀ ev ∈ wr.trace, isRead ev := by
      rw [hr] at hreads0
      exact hreads0
    have hsets : ∀ ev ∈ wc.trace, isSetter ev := by
      have hs := setters_of_run args (newODISF i m o)
      rw [hc] at hs
      exact hs
    obtain ⟨h1, h2, -⟩ := calls_resolvedTrace wr.trace m o hreads
    obtain ⟨h, hh⟩ := configure_some args (newODISF i m o) []
    rw [hc] at hh
    simp only at hh
    rw [hh] at hmain hrun
    have hruns : runCalls ((main env args).run World.init).2.trace = [some h] := by
      rw [hmain]
      simp only [runCalls_append, h1, runCalls_of_isSetter hsets, List.nil_append]
      rfl
    have hwrites : writeCalls ((main env args).run World.init).2.trace = [(labels, p)] := by
      rw [hmain]
      simp only [writeCalls_append, h2, writeCalls_of_isSetter hsets, List.nil_append]
      rfl
    refine ⟨by simp [hwrites], by simp [hruns], ?_, ?_, ?_, ?_⟩
    · intro l q hmem
      rw [hwrites] at hmem
      simp only [List.mem_singleton, Prod.mk.injEq] at hmem
      obtain ⟨rfl, rfl⟩ := hmem
      obtain ⟨-, -, vo, hp, va, -⟩ := hok
      refine ⟨vo, hp, va, i, m, o, wr, wc, h, hr, hc, hh, hrun, hruns, hwrites,
        resolvedTrace wr.trace m o ++ wc.trace ++ [Event.iftDestroyArgs], [], ?_, ?_, ?_,
        rfl, rfl⟩
      · rw [hmain]
        simp
      · simp only [runCalls_append, h1, runCalls_of_isSetter hsets, List.nil_append]
        rfl
      · simp only [writeCalls_append, h2, writeCalls_of_isSetter hsets, List.nil_append]
        rfl
    · intro hg
      rw [main_gate_closed env args hg] at hruns
      simp [runCalls] at hruns
    · intro e1 he1
      rw [hr] at he1
      cases he1
    · intro i1 m1 o1 p1 e1 h1 h2
      rw [hr] at h1
      cases h1
      rw [hc] at h2
      cases h2
  · -- success
    have hok := readImgInputs_ok env args World.init wr i m o p hr
    have hreads : ∀ ev ∈ wr.trace, isRead ev := by
      rw [hr] at hreads0
      exact hreads0
    have hsets : ∀ ev ∈ wc.trace, isSetter ev := by
      have hs := setters_of_run args (newODISF i m o)
      rw [hc] at hs
      exact hs
    obtain ⟨h1, h2, -⟩ := calls_resolvedTrace wr.trace m o hreads
    obtain ⟨h, hh⟩ := configure_some args (newODISF i m o) []
    rw [hc] at hh
    simp only at hh
    rw [hh] at hmain hrun
    have hruns : runCalls ((main env args).run World.init).2.trace = [some h] := by
      rw [hmain]
      simp only [runCalls_append, h1, runCalls_of_isSetter hsets, List.nil_append]
      rfl
    have hwrites : writeCalls ((main env args).run World.init).2.trace = [(labels, p)] := by
      rw [hmain]
      simp only [writeCalls_append, h2, writeCalls_of_isSetter hsets, List.nil_append]
      rfl
    refine ⟨by simp [hwrites], by simp [hruns], ?_, ?_, ?_, ?_⟩
    · intro l q hmem
      rw [hwrites] at hmem
      simp only [List.mem_singleton, Prod.mk.injEq] at hmem
      obtain ⟨rfl, rfl⟩ := hmem
      obtain ⟨-, -, vo, hp, va, -⟩ := hok
      refine ⟨vo, hp, va, i, m, o, wr, wc, h, hr, hc, hh, hrun, hruns, hwrites,
        resolvedTrace wr.trace m o ++ wc.trace ++ [Event.iftDestroyArgs],
        [Event.iftDestroyImage Resource.labels], ?_, ?_, ?_, rfl, rfl⟩
      · rw [hmain]
        simp
      · simp only [runCalls_append, h1, runCalls_of_isSetter hsets, List.nil_append]
        rfl
      · simp only [writeCalls_append, h2, writeCalls_of_isSetter hsets, List.nil_append]
        rfl
    · intro hg
      rw [main_gate_closed env args hg] at hruns
      simp [runCalls] at hruns
    · intro e1 he1
      rw [hr] at he1
      cases he1
    · intro i1 m1 o1 p1 e1 h1 h2
      rw [hr] at h1
      cases h1
      rw [hc] at h2
      cases h2

/-- Witness of claim C9 on `--img a.png --out b.png` (the write of the label
image to `b.png`), on `--out b.png` (usage gate), on `--img z.png --out b.png`
(the load fails) and on `--img a.png --out b.png --sampl-op foo` (the
configuration fails). -/
theorem main_run_then_write_witness :
    (iftHasArgVal ⟨[("img", some "a.png"), ("out", some "b.png")]⟩ "out" = true ∧
      "b.png" = iftGetArg ⟨[("img", some "a.png"), ("out", some "b.png")]⟩ "out" ∧
      demoEnv.iftIsImagePathnameValid "b.png" = true) ∧
    (runCalls ((main demoEnv ⟨[("out", some "b.png")]⟩).run World.init).2.trace = [] ∧
      writeCalls ((main demoEnv ⟨[("out", some "b.png")]⟩).run World.init).2.trace = []) ∧
    (runCalls ((main demoEnv ⟨[("img", some "z.png"), ("out", some "b.png")]⟩).run
        World.init).2.trace = [] ∧
      writeCalls ((main demoEnv ⟨[("img", some "z.png"), ("out", some "b.png")]⟩).run
        World.init).2.trace = []) ∧
    (runCalls
        ((main demoEnv
          ⟨[("img", some "a.png"), ("out", some "b.png"), ("sampl-op", some "foo")]⟩).run
          World.init).2.trace = [] ∧
      writeCalls
        ((main demoEnv
          ⟨[("img", some "a.png"), ("out", some "b.png"), ("sampl-op", some "foo")]⟩).run
          World.init).2.trace = []) :=
  ⟨⟨((main_run_then_write demoEnv ⟨[("img", some "a.png"), ("out", some "b.png")]⟩).2.2.1
        ⟨4, 4, List.replicate 16 1⟩ "b.png" (by decide)).1,
      ((main_run_then_write demoEnv ⟨[("img", some "a.png"), ("out", some "b.png")]⟩).2.2.1
        ⟨4, 4, List.replicate 16 1⟩ "b.png" (by decide)).2.1,
      ((main_run_then_write demoEnv ⟨[("img", some "a.png"), ("out", some "b.png")]⟩).2.2.1
        ⟨4, 4, List.replicate 16 1⟩ "b.png" (by decide)).2.2.1⟩,
    (main_run_then_write demoEnv ⟨[("out", some "b.png")]⟩).2.2.2.1 (Or.inl (by decide)),
    (main_run_then_write demoEnv ⟨[("img", some "z.png"), ("out", some "b.png")]⟩).2.2.2.2.1
      ⟨"Cannot open file", "iftReadImageByExt"⟩ (by decide),
    (main_run_then_write demoEnv
      ⟨[("img", some "a.png"), ("out", some "b.png"), ("sampl-op", some "foo")]⟩).2.2.2.2.2
      img4x4 none none "b.png" ⟨"Unknown seed sampling algorithm", "setODISFSampl"⟩
      (by decide) (by decide)⟩

/-! ## Release of the resources -/

/-- Claim C2, as stated, fails: a fatal error ends the process where it is raised
and nothing is released on the way out.  With
`--img a.png --out b.png --sampl-op foo` the configuration fails after
`iftCreateODISF`; the trace ends at the adjacency setter, the handle is still
in its slot, and neither `iftDestroyODISF` nor `iftDestroyArgs` is ever
called. -/
theorem main_failure_releases_nothing :
    (main demoEnv ⟨[("img", some "a.png"), ("out", some "b.png"), ("sampl-op", some "foo")]⟩).run
        World.init =
      (Except.error ⟨"Unknown seed sampling algorithm", "setODISFSampl"⟩,
        ⟨some freshHandle,
          [Event.iftCreateArgs, Event.iftReadImageByExt Resource.img "a.png",
            Event.iftCreateODISF, Event.iftDestroyImage Resource.img,
            Event.iftODISFUseDiagAdj true]⟩) ∧
    acquired Resource.odisf
      ((main demoEnv
        ⟨[("img", some "a.png"), ("out", some "b.png"), ("sampl-op", some "foo")]⟩).run
        World.init).2.trace = 1 ∧
    released Resource.odisf
      ((main demoEnv
        ⟨[("img", some "a.png"), ("out", some "b.png"), ("sampl-op", some "foo")]⟩).run
        World.init).2.trace = 0 ∧
    acquired Resource.args
      ((main demoEnv
        ⟨[("img", some "a.png"), ("out", some "b.png"), ("sampl-op", some "foo")]⟩).run
        World.init).2.trace = 1 ∧
    released Resource.args
      ((main demoEnv
        ⟨[("img", some "a.png"), ("out", some "b.png"), ("sampl-op", some "foo")]⟩).run
        World.init).2.trace = 0 := by
  decide

/-- What the calls made before `configure` acquire and release, apart from the
images. -/
theorem counts_resolvedTrace (reads : List Event) (m o : Option iftImage)
    (h : ∀ e ∈ reads, isRead e) :
    acquired Resource.args (resolvedTrace reads m o) = 1 ∧
      released Resource.args (resolvedTrace reads m o) = 0 ∧
      acquired Resource.odisf (resolvedTrace reads m o) = 1 ∧
      released Resource.odisf (resolvedTrace reads m o) = 0 ∧
      acquired Resource.labels (resolvedTrace reads m o) = 0 ∧
      released Resource.labels (resolvedTrace reads m o) = 0 := by
  have a1 := acquired_of_isRead h Resource.args (Or.inl rfl)
  have a2 := acquired_of_isRead h Resource.odisf (Or.inr (Or.inl rfl))
  have a3 := acquired_of_isRead h Resource.labels (Or.inr (Or.inr rfl))
  have r1 := released_of_isRead h Resource.args
  have r2 := released_of_isRead h Resource.odisf
  have r3 := released_of_isRead h Resource.labels
  cases m <;> cases o <;>
    simp only [resolvedTrace, acquired_append, released_append, a1, a2, a3, r1, r2, r3,
      Option.isSome_none, Option.isSome_some, Bool.false_eq_true, if_false, if_true] <;>
    decide

/-- Claim C2, amended: release of the resources along the exit paths of `main`.
* On the paths on which `main` returns (the usage gate and success), every
  resource is released as many times as it is acquired, and at most once; on
  success the argument set, the primary image, the handle and the label image
  are each acquired once (and so released once).
* A fatal error ends the process where it is raised, with no release on the way
  out.  When `readImgInputs` fails, nothing has been released at all and the
  argument set stays acquired.
* When the configuration fails, after `iftCreateODISF`, the input images have
  already been released (the primary image once, the mask and the saliency map
  once each when present), but neither the argument set nor the algorithm
  handle is ever released, and no label image exists.
* On every path that ends with a fatal error, some acquired resource is never
  released. -/
theorem main_releases (env : Env) (args : iftArgs) :
    (∀ code, ((main env args).run World.init).1 = Except.ok code →
      ∀ res, released res ((main env args).run World.init).2.trace =
          acquired res ((main env args).run World.init).2.trace ∧
        acquired res ((main env args).run World.init).2.trace ≤ 1) ∧
    (iftExistArg args "img" = true → iftExistArg args "out" = true →
      iftExistArg args "help" = false →
      ∀ e, ((readImgInputs env args).run World.init).1 = Except.error e →
        ((main env args).run World.init).1 = Except.error e ∧
        acquired Resource.args ((main env args).run World.init).2.trace = 1 ∧
        ∀ res, released res ((main env args).run World.init).2.trace = 0) ∧
    (iftExistArg args "img" = true → iftExistArg args "out" = true →
      iftExistArg args "help" = false →
      ∀ i m o p e, ((readImgInputs env args).run World.init).1 = Except.ok (i, m, o, p) →
        ((configure args).run ⟨some (newODISF i m o), []⟩).1 = Except.error e →
        ((main env args).run World.init).1 = Except.error e ∧
        acquired Resource.args ((main env args).run World.init).2.trace = 1 ∧
        released Resource.args ((main env args).run World.init).2.trace = 0 ∧
        acquired Resource.odisf ((main env args).run World.init).2.trace = 1 ∧
        released Resource.odisf ((main env args).run World.init).2.trace = 0 ∧
        acquired Resource.img ((main env args).run World.init).2.trace = 1 ∧
        released Resource.img ((main env args).run World.init).2.trace = 1 ∧
        acquired Resource.mask ((main env args).run World.init).2.trace =
          (if m.isSome then 1 else 0) ∧
        released Resource.mask ((main env args).run World.init).2.trace =
          (if m.isSome then 1 else 0) ∧
        acquired Resource.objsm ((main env args).run World.init).2.trace =
          (if o.isSome then 1 else 0) ∧
        released Resource.objsm ((main env args).run World.init).2.trace =
          (if o.isSome then 1 else 0) ∧
        acquired Resource.labels ((main env args).run World.init).2.trace = 0 ∧
        released Resource.labels ((main env args).run World.init).2.trace = 0) ∧
    (∀ e, ((main env args).run World.init).1 = Except.error e →
      ∃ res, released res ((main env args).run World.init).2.trace <
        acquired res ((main env args).run World.init).2.trace) ∧
    (((main env args).run World.init).1 = Except.ok EXIT_SUCCESS →
      acquired Resource.args ((main env args).run World.init).2.trace = 1 ∧
        acquired Resource.img ((main env args).run World.init).2.trace = 1 ∧
        acquired Resource.odisf ((main env args).run World.init).2.trace = 1 ∧
        acquired Resource.labels ((main env args).run World.init).2.trace = 1) := by
  have hreads0 := reads_of_run env args
  rcases main_cases env args with ⟨hg, hmain⟩ | ⟨e, wr, hr, hmain⟩ |
    ⟨i, m, o, p, wr, e, wc, hr, hc, hmain⟩ | ⟨i, m, o, p, wr, wc, e, hr, hc, hrun, hmain⟩ |
    ⟨i, m, o, p, wr, wc, labels, e, hr, hc, hrun, hw, hmain⟩ |
    ⟨i, m, o, p, wr, wc, labels, hr, hc, hrun, hw, hmain⟩
  · -- usage gate
    refine ⟨?_, ?_, ?_, ?_, ?_⟩
    · intro code _ res
      rw [hmain]
      cases res <;> decide
    · intro hi ho hh
      rcases hg with h | h | h
      · rw [hi] at h
        cases h
      · rw [ho] at h
        cases h
      · rw [hh] at h
        cases h
    · intro hi ho hh
      rcases hg with h | h | h
      · rw [hi] at h
        cases h
      · rw [ho] at h
        cases h
      · rw [hh] at h
        cases h
    · intro e he
      rw [hmain] at he
      cases he
    · intro hs
      rw [hmain] at hs
      exact absurd hs (by decide)
  · -- `readImgInputs` fails
    have hreads : ∀ ev ∈ wr.trace, isRead ev := by
      rw [hr] at hreads0
      exact hreads0
    have ha : acquired Resource.args ((main env args).run World.init).2.trace = 1 := by
      rw [hmain]
      simp only [acquired_append, acquired_of_isRead hreads Resource.args (Or.inl rfl)]
      rfl
    have hrel : ∀ res, released res ((main env args).run World.init).2.trace = 0 := by
      intro res
      rw [hmain]
      simp only [released_append, released_of_isRead hreads res]
      cases res <;> rfl
    refine ⟨?_, ?_, ?_, ?_, ?_⟩
    · intro code hcode
      rw [hmain] at hcode
      cases hcode
    · intro _ _ _ e1 he1
      rw [hr] at he1
      cases he1
      exact ⟨by rw [hmain], ha, hrel⟩
    · intro _ _ _ i1 m1 o1 p1 e1 h1
      rw [hr] at h1
      cases h1
    · intro e1 _
      exact ⟨Resource.args, by rw [ha, hrel]; exact Nat.zero_lt_one⟩
    · intro hs
      rw [hmain] at hs
      cases hs
  · -- `configure` fails
    have hreads : ∀ ev ∈ wr.trace, isRead ev := by
      rw [hr] at hreads0
      exact hreads0
    have hsets : ∀ ev ∈ wc.trace, isSetter ev := by
      have hs := setters_of_run args (newODISF i m o)
      rw [hc] at hs
      exact hs
    obtain ⟨a1, r1, a2, r2, -, -⟩ := counts_resolvedTrace wr.trace m o hreads
    have ha : acquired Resource.args ((main env args).run World.init).2.trace = 1 := by
      rw [hmain]
      simp only [acquired_append, a1, acquired_of_isSetter hsets]
    have hr0 : released Resource.args ((main env args).run World.init).2.trace = 0 := by
      rw [hmain]
      simp only [released_append, r1, released_of_isSetter hsets]
    have ha2 : acquired Resource.odisf ((main env args).run World.init).2.trace = 1 := by
      rw [hmain]
      simp only [acquired_append, a2, acquired_of_isSetter hsets]
    have hr2 : released Resource.odisf ((main env args).run World.init).2.trace = 0 := by
      rw [hmain]
      simp only [released_append, r2, released_of_isSetter hsets]
    refine ⟨?_, ?_, ?_, ?_, ?_⟩
    · intro code hcode
      rw [hmain] at hcode
      cases hcode
    · intro _ _ _ e1 he1
      rw [hr] at he1
      cases he1
    · intro _ _ _ i1 m1 o1 p1 e1 h1 h2
      rw [hr] at h1
      cases h1
      rw [hc] at h2
      cases h2
      obtain ⟨-, -, -, -, -, -, -, -, -, hwr⟩ :=
        readImgInputs_ok env args World.init wr i m o p hr
      refine ⟨by rw [hmain], ha, hr0, ha2, hr2, ?_, ?_, ?_, ?_, ?_, ?_, ?_, ?_⟩
      all_goals
        rw [hmain, hwr]
        cases m <;> cases o <;>
          simp only [resolvedTrace, World.init, acquired_append, released_append,
            acquired_of_isSetter hsets, released_of_isSetter hsets, Option.isSome_none,
            Option.isSome_some, Bool.false_eq_true, if_false, if_true] <;>
          simp [acquired, released, acquires, releases]
    · intro e1 _
      exact ⟨Resource.args, by rw [ha, hr0]; exact Nat.zero_lt_one⟩
    · intro hs
      rw [hmain] at hs
      cases hs
  · -- the segmentation fails
    have hreads : ∀ ev ∈ wr.trace, isRead ev := by
      rw [hr] at hreads0
      exact hreads0
    have hsets : ∀ ev ∈ wc.trace, isSetter ev := by
      have hs := setters_of_run args (newODISF i m o)
      rw [hc] at hs
      exact hs
    obtain ⟨-, -, a2, r2, -, -⟩ := counts_resolvedTrace wr.trace m o hreads
    have ha2 : acquired Resource.odisf ((main env args).run World.init).2.trace = 1 := by
      rw [hmain]
      simp only [acquired_append, a2, acquired_of_isSetter hsets]
      rfl
    have hr2 : released Resource.odisf ((main env args).run World.init).2.trace = 0 := by
      rw [hmain]
      simp only [released_append, r2, released_of_isSetter hsets]
      rfl
    refine ⟨?_, ?_, ?_, ?_, ?_⟩
    · intro code hcode
      rw [hmain] at hcode
      cases hcode
    · intro _ _ _ e1 he1
      rw [hr] at he1
      cases he1
    · intro _ _ _ i1 m1 o1 p1 e1 h1 h2
      rw [hr] at h1
      cases h1
      rw [hc] at h2
      cases h2
    · intro e1 _
      exact ⟨Resource.odisf, by rw [ha2, hr2]; exact Nat.zero_lt_one⟩
    · intro hs
      rw [hmain] at hs
      cases hs
  · -- the write fails
    have hreads : ∀ ev ∈ wr.trace, isRead ev := by
      rw [hr] at hreads0
      exact hreads0
    have hsets : ∀ ev ∈ wc.trace, isSetter ev := by
      have hs := setters_of_run args (newODISF i m o)
      rw [hc] at hs
      exact hs
    obtain ⟨-, -, -, -, a3, r3⟩ := counts_resolvedTrace wr.trace m o hreads
    have ha3 : acquired Resource.labels ((main env args).run World.init).2.trace = 1 := by
      rw [hmain]
      simp only [acquired_append, a3, acquired_of_isSetter hsets]
      rfl
    have hr3 : released Resource.labels ((main env args).run World.init).2.trace = 0 := by
      rw [hmain]
      simp only [released_append, r3, released_of_isSetter hsets]
      rfl
    refine ⟨?_, ?_, ?_, ?_, ?_⟩
    · intro code hcode
      rw [hmain] at hcode
      cases hcode
    · intro _ _ _ e1 he1
      rw [hr] at he1
      cases he1
    · intro _ _ _ i1 m1 o1 p1 e1 h1 h2
      rw [hr] at h1
      cases h1
      rw [hc] at h2
      cases h2
    · intro e1 _
      exact ⟨Resource.labels, by rw [ha3, hr3]; exact Nat.zero_lt_one⟩
    · intro hs
      rw [hmain] at hs
      cases hs
  · -- success
    have hsets : ∀ ev ∈ wc.trace, isSetter ev := by
      have hs := setters_of_run args (newODISF i m o)
      rw [hc] at hs
      exact hs
    obtain ⟨-, -, -, -, -, -, -, -, -, hwr⟩ :=
      readImgInputs_ok env args World.init wr i m o p hr
    refine ⟨?_, ?_, ?_, ?_, ?_⟩
    · intro code _ res
      rw [hmain, hwr]
      cases res <;> cases m <;> cases o <;>
        simp only [resolvedTrace, World.init, acquired_append, released_append,
          acquired_of_isSetter hsets, released_of_isSetter hsets, Option.isSome_none,
          Option.isSome_some, Bool.false_eq_true, if_false, if_true] <;>
        simp [acquired, released, acquires, releases]
    · intro _ _ _ e1 he1
      rw [hr] at he1
      cases he1
    · intro _ _ _ i1 m1 o1 p1 e1 h1 h2
      rw [hr] at h1
      cases h1
      rw [hc] at h2
      cases h2
    · intro e1 he1
      rw [hmain] at he1
      cases he1
    · intro _
      refine ⟨?_, ?_, ?_, ?_⟩
      all_goals
        rw [hmain, hwr]
        cases m <;> cases o <;>
          simp only [resolvedTrace, World.init, acquired_append, released_append,
            acquired_of_isSetter hsets, released_of_isSetter hsets, Option.isSome_none,
            Option.isSome_some, Bool.false_eq_true, if_false, if_true] <;>
          simp [acquired, released, acquires, releases]

/-- Witness of the amended claim C2 on `--img a.png --out b.png` (success), on
`--img z.png --out b.png` (the load fails) and on
`--img a.png --out b.png --mask a.png --sampl-op foo` (the configuration fails
after the primary image and the mask were loaded and released). -/
theorem main_releases_witness :
    (released Resource.odisf ((main demoEnv
        ⟨[("img", some "a.png"), ("out", some "b.png")]⟩).run World.init).2.trace =
        acquired Resource.odisf ((main demoEnv
        ⟨[("img", some "a.png"), ("out", some "b.png")]⟩).run World.init).2.trace ∧
      acquired Resource.odisf ((main demoEnv
        ⟨[("img", some "a.png"), ("out", some "b.png")]⟩).run World.init).2.trace ≤ 1) ∧
    (acquired Resource.args ((main demoEnv
        ⟨[("img", some "a.png"), ("out", some "b.png")]⟩).run World.init).2.trace = 1 ∧
      acquired Resource.img ((main demoEnv
        ⟨[("img", some "a.png"), ("out", some "b.png")]⟩).run World.init).2.trace = 1 ∧
      acquired Resource.odisf ((main demoEnv
        ⟨[("img", some "a.png"), ("out", some "b.png")]⟩).run World.init).2.trace = 1 ∧
      acquired Resource.labels ((main demoEnv
        ⟨[("img", some "a.png"), ("out", some "b.png")]⟩).run World.init).2.trace = 1) ∧
    (((main demoEnv
        ⟨[("img", some "z.png"), ("out", some "b.png")]⟩).run World.init).1 =
        Except.error ⟨"Cannot open file", "iftReadImageByExt"⟩ ∧
      acquired Resource.args ((main demoEnv
        ⟨[("img", some "z.png"), ("out", some "b.png")]⟩).run World.init).2.trace = 1 ∧
      released Resource.args ((main demoEnv
        ⟨[("img", some "z.png"), ("out", some "b.png")]⟩).run World.init).2.trace = 0) ∧
    (((main demoEnv
        ⟨[("img", some "a.png"), ("out", some "b.png"), ("mask", some "a.png"),
          ("sampl-op", some "foo")]⟩).run World.init).1 =
        Except.error ⟨"Unknown seed sampling algorithm", "setODISFSampl"⟩ ∧
      acquired Resource.args ((main demoEnv
        ⟨[("img", some "a.png"), ("out", some "b.png"), ("mask", some "a.png"),
          ("sampl-op", some "foo")]⟩).run World.init).2.trace = 1 ∧
      released Resource.args ((main demoEnv
        ⟨[("img", some "a.png"), ("out", some "b.png"), ("mask", some "a.png"),
          ("sampl-op", some "foo")]⟩).run World.init).2.trace = 0 ∧
      acquired Resource.odisf ((main demoEnv
        ⟨[("img", some "a.png"), ("out", some "b.png"), ("mask", some "a.png"),
          ("sampl-op", some "foo")]⟩).run World.init).2.trace = 1 ∧
      released Resource.odisf ((main demoEnv
        ⟨[("img", some "a.png"), ("out", some "b.png"), ("mask", some "a.png"),
          ("sampl-op", some "foo")]⟩).run World.init).2.trace = 0 ∧
      acquired Resource.img ((main demoEnv
        ⟨[("img", some "a.png"), ("out", some "b.png"), ("mask", some "a.png"),
          ("sampl-op", some "foo")]⟩).run World.init).2.trace = 1 ∧
      released Resource.img ((main demoEnv
        ⟨[("img", some "a.png"), ("out", some "b.png"), ("mask", some "a.png"),
          ("sampl-op", some "foo")]⟩).run World.init).2.trace = 1 ∧
      acquired Resource.mask ((main demoEnv
        ⟨[("img", some "a.png"), ("out", some "b.png"), ("mask", some "a.png"),
          ("sampl-op", some "foo")]⟩).run World.init).2.trace = 1 ∧
      released Resource.mask ((main demoEnv
        ⟨[("img", some "a.png"), ("out", some "b.png"), ("mask", some "a.png"),
          ("sampl-op", some "foo")]⟩).run World.init).2.trace = 1 ∧
      acquired Resource.objsm ((main demoEnv
        ⟨[("img", some "a.png"), ("out", some "b.png"), ("mask", some "a.png"),
          ("sampl-op", some "foo")]⟩).run World.init).2.trace = 0 ∧
      released Resource.objsm ((main demoEnv
        ⟨[("img", some "a.png"), ("out", some "b.png"), ("mask", some "a.png"),
          ("sampl-op", some "foo")]⟩).run World.init).2.trace = 0 ∧
      acquired Resource.labels ((main demoEnv
        ⟨[("img", some "a.png"), ("out", some "b.png"), ("mask", some "a.png"),
          ("sampl-op", some "foo")]⟩).run World.init).2.trace = 0 ∧
      released Resource.labels ((main demoEnv
        ⟨[("img", some "a.png"), ("out", some "b.png"), ("mask", some "a.png"),
          ("sampl-op", some "foo")]⟩).run World.init).2.trace = 0) ∧
    (∃ res,
      released res ((main demoEnv
        ⟨[("img", some "a.png"), ("out", some "b.png"), ("mask", some "a.png"),
          ("sampl-op", some "foo")]⟩).run World.init).2.trace <
        acquired res ((main demoEnv
        ⟨[("img", some "a.png"), ("out", some "b.png"), ("mask", some "a.png"),
          ("sampl-op", some "foo")]⟩).run World.init).2.trace) :=
  ⟨(main_releases demoEnv ⟨[("img", some "a.png"), ("out", some "b.png")]⟩).1 EXIT_SUCCESS (by decide) Resource.odisf,
    (main_releases demoEnv ⟨[("img", some "a.png"), ("out", some "b.png")]⟩).2.2.2.2 (by decide),
    ⟨((main_releases demoEnv
        ⟨[("img", some "z.png"), ("out", some "b.png")]⟩).2.1
        (by decide) (by decide) (by decide) ⟨"Cannot open file", "iftReadImageByExt"⟩
        (by decide)).1,
      ((main_releases demoEnv
        ⟨[("img", some "z.png"), ("out", some "b.png")]⟩).2.1
        (by decide) (by decide) (by decide) ⟨"Cannot open file", "iftReadImageByExt"⟩
        (by decide)).2.1,
      ((main_releases demoEnv
        ⟨[("img", some "z.png"), ("out", some "b.png")]⟩).2.1
        (by decide) (by decide) (by decide) ⟨"Cannot open file", "iftReadImageByExt"⟩
        (by decide)).2.2 Resource.args⟩,
    (main_releases demoEnv
        ⟨[("img", some "a.png"), ("out", some "b.png"), ("mask", some "a.png"),
          ("sampl-op", some "foo")]⟩).2.2.1
        (by decide) (by decide) (by decide) img4x4 (some img4x4) none "b.png"
        ⟨"Unknown seed sampling algorithm", "setODISFSampl"⟩ (by decide) (by decide),
    (main_releases demoEnv
        ⟨[("img", some "a.png"), ("out", some "b.png"), ("mask", some "a.png"),
          ("sampl-op", some "foo")]⟩).2.2.2.1
      ⟨"Unknown seed sampling algorithm", "setODISFSampl"⟩ (by decide)⟩

end RunODISF
